import Mathlib

/-!
Shallow embedding of the synthetic wellness/aging dataset generator
(DemographicGenerator, TWABehaviorGenerator, OutcomeGenerator,
LongitudinalDataGenerator) and proofs about it.

Modelling conventions:
* JS `number` values are embedded as `ℚ` (exact arithmetic).  The one
  transcendental operation, `Math.pow(1.1, e)` in the mortality-risk model, is
  abstracted as an explicit function parameter `pow11 : ℚ → ℚ` threaded through
  the outcome model; every theorem quantifies over it.
* `Math.random()` draws are explicit parameters: each sampling function takes
  the draws it consumes as named arguments, bundled in per-call structures.
* TS string-literal-union values (education, gender, smoking status, ...) are
  embedded as `String`, so that the source's `map[key] || default` record
  lookups keep their meaning (all mapped values are non-zero, so `|| d`
  coincides with lookup-with-default).  The `season` union is embedded as an
  inductive type, since it is only ever consumed by exhaustive dispatch.
* Divisions whose denominator can be `0` at run time (producing NaN/±Infinity
  doubles) are modelled with `Option ℚ`: `none` stands for a non-finite double.
  Divisions whose denominator is provably non-zero on every reachable input
  use plain `ℚ` division.
* The `async` generation entrypoint and the validation entrypoint are wrapped
  in `Except GenError`; the source contains no `throw`, so both always return
  `Except.ok`.
-/

/-- Errors named by the specification's error taxonomy. -/
inductive GenError where
  | invalidConfiguration
  | insufficientData
deriving DecidableEq, Repr

/-- JS `Math.round`: round half toward positive infinity. -/
def jsRound (x : ℚ) : ℚ := ((⌊x + 1/2⌋ : ℤ) : ℚ)

/-- JS division returning NaN/Infinity on a zero denominator, modelled as `none`. -/
def jsDiv (a b : ℚ) : Option ℚ := if b = 0 then none else some (a / b)

/-- Addition on JS numbers that may be non-finite (NaN/Infinity absorbs). -/
def jsAdd (a b : Option ℚ) : Option ℚ := a.bind fun x => b.map fun y => x + y

/-- Subtraction on JS numbers that may be non-finite. -/
def jsSub (a b : Option ℚ) : Option ℚ := a.bind fun x => b.map fun y => x - y

/-- JS `Math.abs` on possibly non-finite numbers. -/
def jsAbs (a : Option ℚ) : Option ℚ := a.map fun x => |x|

/-- JS `Math.max` on possibly non-finite numbers (`Math.max` returns NaN whenever
an argument is NaN; the non-finite cases are conflated into `none`). -/
def jsMax (a b : Option ℚ) : Option ℚ := a.bind fun x => b.map fun y => max x y

/-- Sum of a list of possibly non-finite JS numbers. -/
def jsSum (l : List (Option ℚ)) : Option ℚ := l.foldl jsAdd (some 0)

/-- JS `String.prototype.padStart`: left-pad with `c` up to length `len`. -/
def padStart (s : String) (len : ℕ) (c : Char) : String :=
  String.mk (List.replicate (len - s.data.length) c ++ s.data)

/-- Lookup in a TS `Record<string, T>` literal with a `|| default` fallback
(all record values used in the source are truthy, so this is exact). -/
def lookupD {β : Type} (m : List (String × β)) (k : String) (d : β) : β :=
  (m.lookup k).getD d

/-- JS `new Set(list)` converted back to an array: first-occurrence dedup,
preserving insertion order. -/
def setDedup (l : List String) : List String :=
  l.foldl (fun acc x => if x ∈ acc then acc else acc ++ [x]) []

/-- The four-valued `season` union type. -/
inductive Season where
  | Spring | Summer | Fall | Winter
deriving DecidableEq, Repr

/-- Subject profile produced by `EnhancedDemographicGenerator` (types.ts
`Demographics`). -/
structure Demographics where
  id : String
  age_group : String
  age_numeric : ℚ
  gender : String
  ethnicity : String
  education : String
  income_bracket : String
  income_numeric : ℚ
  fitness_level : String
  sleep_type : String
  region : String
  urban_rural : String
  occupation : String
deriving DecidableEq, Repr

/-- Monthly lifestyle-behavior vector (types.ts `TWABehaviors`). -/
structure TWABehaviors where
  motion_days_week : ℚ
  sleep_hours : ℚ
  sleep_quality_score : ℚ
  hydration_cups_day : ℚ
  diet_mediterranean_score : ℚ
  meditation_minutes_week : ℚ
  smoking_status : String
  alcohol_drinks_week : ℚ
  added_sugar_grams_day : ℚ
  sodium_grams_day : ℚ
  processed_food_servings_week : ℚ
  social_connections_count : ℚ
  nature_minutes_week : ℚ
  cultural_hours_week : ℚ
  purpose_meaning_score : ℚ
deriving DecidableEq, Repr

/-- Monthly wellness/aging outcome vector (types.ts `WellnessOutcomes`). -/
structure WellnessOutcomes where
  biological_age_years : ℚ
  biological_age_acceleration : ℚ
  mortality_risk_score : ℚ
  estimated_lifespan_years : ℚ
  crp_mg_l : ℚ
  il6_pg_ml : ℚ
  igf1_ng_ml : ℚ
  gdf15_pg_ml : ℚ
  cortisol_ug_dl : ℚ
  grip_strength_kg : ℚ
  gait_speed_ms : ℚ
  balance_score : ℚ
  frailty_index : ℚ
  cognitive_composite_score : ℚ
  processing_speed_score : ℚ
  life_satisfaction_score : ℚ
  stress_level_score : ℚ
  depression_risk_score : ℚ
  social_support_score : ℚ
deriving DecidableEq, Repr

/-- One row of the generated dataset (types.ts `MonthlyRecord`). -/
structure MonthlyRecord where
  subject_id : String
  month : ℕ
  season : Season
  observation_date : String
  demographics : Demographics
  behaviors : TWABehaviors
  outcomes : WellnessOutcomes
  meets_exercise_guidelines : Bool
  meets_sleep_guidelines : Bool
  high_diet_quality : Bool
  regular_meditation : Bool
  strong_social_support : Bool
  high_purpose : Bool
  healthy_aging_profile : ℚ
  blue_zone_similarity_score : ℚ
deriving DecidableEq, Repr

/-- Generation configuration (types.ts `DatasetConfig`). -/
structure DatasetConfig where
  n_subjects : ℕ
  months : ℕ
  include_validation : Bool
  export_format : String
deriving DecidableEq, Repr

/-- The `Math.random()` draws consumed while sampling one subject profile. -/
structure DemoDraws where
  age_r : ℚ
  gender_r : ℚ
  ethnicity_r : ℚ
  education_r : ℚ
  income_r : ℚ
  fitness_r : ℚ
  sleep_r : ℚ
  region_r : ℚ
  urban_r : ℚ
  occupation_r : ℚ
deriving DecidableEq, Repr

/-- The `Math.random()` draws consumed while sampling one behavior vector. -/
structure BehaviorNoise where
  motion_r : ℚ
  sleep_hours_r : ℚ
  sleep_quality_r : ℚ
  hydration_r : ℚ
  diet_r : ℚ
  meditation_r : ℚ
  smoking_r : ℚ
  alcohol_r : ℚ
  sugar_r : ℚ
  sodium_r : ℚ
  processed_r : ℚ
  social_r : ℚ
  nature_r : ℚ
  cultural_r : ℚ
  purpose_r : ℚ
deriving DecidableEq, Repr

/-- The `Math.random()` draws consumed while computing one outcome vector
(one shared biomarker-variation draw, one lifespan-variation draw). -/
structure OutcomeNoise where
  biomarker_r : ℚ
  lifespan_r : ℚ
deriving DecidableEq, Repr

/-- DemographicGenerator `weightedRandomChoice`: cumulative weight walk over
`items`; `r` is the `Math.random()` draw, multiplied by the total weight.
Falls back to the last item (all call sites pass equal-length lists). -/
def wrcWalk : List String → List ℚ → ℚ → Option String
  | it :: its, w :: ws, random =>
      if random - w ≤ 0 then some it else wrcWalk its ws (random - w)
  | _, _, _ => none

/-- JS `weightedRandomChoice(items, weights)` with explicit draw `r`. -/
def weightedRandomChoice (items : List String) (weights : List ℚ) (r : ℚ) : String :=
  (wrcWalk items weights (r * weights.sum)).getD (items.getLast?.getD "")

/-- DemographicGenerator `shiftProbabilitiesTowardHigher`: move a fixed
fraction of mass from the lower half of the list to the upper half and
renormalize. -/
def shiftProbabilitiesTowardHigher (probabilities : List ℚ) (factor : ℚ) : List ℚ :=
  let reduction := (factor - 1) * 0.1
  let shifted := probabilities.mapIdx fun i p =>
    if (i : ℚ) < (probabilities.length : ℚ) / 2 then max 0 (p - reduction)
    else min 1 (p + reduction)
  let total := shifted.sum
  shifted.map (· / total)

/-- DemographicGenerator `shiftProbabilitiesTowardLower`. -/
def shiftProbabilitiesTowardLower (probabilities : List ℚ) (factor : ℚ) : List ℚ :=
  let reduction := (factor - 1) * 0.1
  let shifted := probabilities.mapIdx fun i p =>
    if (i : ℚ) < (probabilities.length : ℚ) / 2 then min 1 (p + reduction)
    else max 0 (p - reduction)
  let total := shifted.sum
  shifted.map (· / total)

/-- DemographicGenerator `ageGroupToNumeric`. -/
def ageGroupToNumeric (ageGroup : String) : ℚ :=
  lookupD [("18-24", 21), ("25-34", 29.5), ("35-44", 39.5), ("45-54", 49.5),
           ("55-64", 59.5), ("65-74", 69.5), ("75+", 80)] ageGroup 40

/-- DemographicGenerator `incomeBracketToNumeric`. -/
def incomeBracketToNumeric (incomeBracket : String) : ℚ :=
  lookupD [("<$35k", 25000), ("$35-75k", 55000), ("$75-100k", 87500),
           (">$100k", 125000)] incomeBracket 50000

/-- DemographicGenerator `sampleAgeGroup`. -/
def sampleAgeGroup (r : ℚ) : String :=
  weightedRandomChoice ["18-24", "25-34", "35-44", "45-54", "55-64", "65-74", "75+"]
    [0.11, 0.14, 0.13, 0.12, 0.13, 0.11, 0.07] r

/-- DemographicGenerator `sampleGender`. -/
def sampleGender (r : ℚ) : String :=
  weightedRandomChoice ["Male", "Female", "Non-binary"] [0.49, 0.505, 0.005] r

/-- DemographicGenerator `sampleEthnicity`. -/
def sampleEthnicity (r : ℚ) : String :=
  weightedRandomChoice ["White", "Hispanic", "Black", "Asian", "Other"]
    [0.60, 0.19, 0.13, 0.06, 0.02] r

/-- DemographicGenerator `sampleEducationByAge`. -/
def sampleEducationByAge (ageGroup : String) (r : ℚ) : String :=
  let educationLevels := ["Less than HS", "High School", "Some College", "Bachelor+"]
  let ageEducationProbs : List (String × List ℚ) :=
    [("18-24", [0.05, 0.25, 0.45, 0.25]),
     ("25-34", [0.08, 0.22, 0.30, 0.40]),
     ("35-44", [0.10, 0.25, 0.28, 0.37]),
     ("45-54", [0.12, 0.28, 0.30, 0.30]),
     ("55-64", [0.15, 0.32, 0.28, 0.25]),
     ("65-74", [0.18, 0.35, 0.25, 0.22]),
     ("75+", [0.20, 0.40, 0.25, 0.15])]
  let probabilities := lookupD ageEducationProbs ageGroup [0.11, 0.27, 0.29, 0.33]
  weightedRandomChoice educationLevels probabilities r

/-- DemographicGenerator `sampleIncomeByEducationAge`. -/
def sampleIncomeByEducationAge (education ageGroup : String) (r : ℚ) : String :=
  let incomeBrackets := ["<$35k", "$35-75k", "$75-100k", ">$100k"]
  let baseProbs : List (String × List ℚ) :=
    [("Less than HS", [0.50, 0.35, 0.10, 0.05]),
     ("High School", [0.35, 0.40, 0.20, 0.05]),
     ("Some College", [0.25, 0.45, 0.25, 0.05]),
     ("Bachelor+", [0.10, 0.30, 0.35, 0.25])]
  let probabilities := lookupD baseProbs education [0.28, 0.35, 0.16, 0.21]
  let ageMultiplier := ageGroupToNumeric ageGroup / 50
  let probabilities :=
    if 1 < ageMultiplier then shiftProbabilitiesTowardHigher probabilities ageMultiplier
    else probabilities
  weightedRandomChoice incomeBrackets probabilities r

/-- DemographicGenerator `sampleFitnessByDemographics`. -/
def sampleFitnessByDemographics (ageGroup income education : String) (r : ℚ) : String :=
  let fitnessLevels := ["Low", "Medium", "High"]
  let probabilities : List ℚ := [0.30, 0.50, 0.20]
  let ageNumeric := ageGroupToNumeric ageGroup
  let probabilities :=
    if 50 < ageNumeric then ([0.50, 0.40, 0.10] : List ℚ)
    else if ageNumeric < 30 then ([0.15, 0.45, 0.40] : List ℚ)
    else probabilities
  let incomeNumeric := incomeBracketToNumeric income
  let probabilities :=
    if 75000 < incomeNumeric then shiftProbabilitiesTowardHigher probabilities 1.2
    else if incomeNumeric < 35000 then shiftProbabilitiesTowardLower probabilities 1.2
    else probabilities
  let probabilities :=
    if education = "Bachelor+" then shiftProbabilitiesTowardHigher probabilities 1.1
    else probabilities
  weightedRandomChoice fitnessLevels probabilities r

/-- DemographicGenerator `sampleSleepTypeByDemographics`. -/
def sampleSleepTypeByDemographics (ageGroup income : String) (r : ℚ) : String :=
  let sleepTypes := ["Regular", "Short", "Irregular"]
  let probabilities : List ℚ := [0.60, 0.25, 0.15]
  let ageNumeric := ageGroupToNumeric ageGroup
  let probabilities :=
    if 50 < ageNumeric then ([0.70, 0.20, 0.10] : List ℚ)
    else if ageNumeric < 30 then ([0.45, 0.30, 0.25] : List ℚ)
    else probabilities
  let incomeNumeric := incomeBracketToNumeric income
  let probabilities :=
    if 75000 < incomeNumeric then ([0.70, 0.20, 0.10] : List ℚ)
    else if incomeNumeric < 35000 then ([0.50, 0.30, 0.20] : List ℚ)
    else probabilities
  weightedRandomChoice sleepTypes probabilities r

/-- DemographicGenerator `sampleRegion`. -/
def sampleRegion (r : ℚ) : String :=
  weightedRandomChoice ["Northeast", "Midwest", "South", "West"]
    [0.17, 0.21, 0.38, 0.24] r

/-- DemographicGenerator `sampleUrbanRuralByRegion`. -/
def sampleUrbanRuralByRegion (region : String) (r : ℚ) : String :=
  let urbanRuralTypes := ["Urban", "Suburban", "Rural"]
  let regionProbs : List (String × List ℚ) :=
    [("Northeast", [0.25, 0.60, 0.15]),
     ("Midwest", [0.15, 0.50, 0.35]),
     ("South", [0.20, 0.45, 0.35]),
     ("West", [0.30, 0.55, 0.15])]
  let probabilities := lookupD regionProbs region [0.20, 0.50, 0.30]
  weightedRandomChoice urbanRuralTypes probabilities r

/-- DemographicGenerator `sampleOccupationByDemographics`. -/
def sampleOccupationByDemographics (education ageGroup : String) (r : ℚ) : String :=
  let occupations : List (String × List String) :=
    [("Less than HS", ["Service Worker", "Laborer", "Retail Worker", "Unemployed"]),
     ("High School", ["Office Worker", "Technician", "Sales", "Service Worker"]),
     ("Some College", ["Administrative", "Technician", "Sales Manager", "Healthcare Support"]),
     ("Bachelor+", ["Professional", "Manager", "Engineer", "Healthcare Professional"])]
  let ageOccupations : List (String × List String) :=
    [("18-24", ["Student", "Service Worker", "Retail Worker"]),
     ("25-34", ["Professional", "Office Worker", "Technician"]),
     ("35-44", ["Manager", "Professional", "Healthcare Professional"]),
     ("45-54", ["Manager", "Professional", "Administrative"]),
     ("55-64", ["Manager", "Administrative", "Consultant"]),
     ("65-74", ["Retired", "Consultant", "Part-time"]),
     ("75+", ["Retired", "Volunteer"])]
  let educationOccupations :=
    lookupD occupations education ["Office Worker", "Technician", "Sales", "Service Worker"]
  let ageOccupationsList := lookupD ageOccupations ageGroup ["Office Worker"]
  let allOccupations := setDedup (educationOccupations ++ ageOccupationsList)
  let weights := allOccupations.map fun occ =>
    if occ ∈ educationOccupations then (1 : ℚ) else 0.5
  weightedRandomChoice allOccupations weights r

/-- The subject identifier assigned to subject number `i`. -/
def subjectId (i : ℕ) : String := "SYNTH_" ++ padStart (Nat.repr i) 6 '0'

/-- One iteration of the `generateCorrelatedDemographics` loop: the chained
conditional draws for subject number `i`. -/
def generateDemographic (i : ℕ) (d : DemoDraws) : Demographics :=
  let ageGroup := sampleAgeGroup d.age_r
  let education := sampleEducationByAge ageGroup d.education_r
  let income := sampleIncomeByEducationAge education ageGroup d.income_r
  let fitness := sampleFitnessByDemographics ageGroup income education d.fitness_r
  let sleepType := sampleSleepTypeByDemographics ageGroup income d.sleep_r
  let region := sampleRegion d.region_r
  let urbanRural := sampleUrbanRuralByRegion region d.urban_r
  { id := subjectId i
    age_group := ageGroup
    age_numeric := ageGroupToNumeric ageGroup
    gender := sampleGender d.gender_r
    ethnicity := sampleEthnicity d.ethnicity_r
    education := education
    income_bracket := income
    income_numeric := incomeBracketToNumeric income
    fitness_level := fitness
    sleep_type := sleepType
    region := region
    urban_rural := urbanRural
    occupation := sampleOccupationByDemographics education ageGroup d.occupation_r }

/-- DemographicGenerator `generateCorrelatedDemographics` with its random
stream made explicit (one `DemoDraws` bundle per subject). -/
def generateCorrelatedDemographics (nSamples : ℕ) (dr : ℕ → DemoDraws) : List Demographics :=
  (List.range nSamples).map fun i => generateDemographic i (dr i)

/-- Projected demographic factors (TWABehaviorGenerator
`calculateDemographicFactors`). -/
structure DemoFactors where
  age : ℚ
  income : ℚ
  education : String
  fitness : String
  sleepType : String
  region : String
  urbanRural : String
deriving DecidableEq, Repr

/-- TWABehaviorGenerator `calculateDemographicFactors`. -/
def calculateDemographicFactors (demographics : Demographics) : DemoFactors :=
  { age := demographics.age_numeric
    income := demographics.income_numeric
    education := demographics.education
    fitness := demographics.fitness_level
    sleepType := demographics.sleep_type
    region := demographics.region
    urbanRural := demographics.urban_rural }

/-- Seasonal adjustment factors (TWABehaviorGenerator
`calculateSeasonalFactors`). -/
structure SeasonalFactors where
  exercise : ℚ
  mood : ℚ
  outdoor : ℚ
deriving DecidableEq, Repr

/-- TWABehaviorGenerator `calculateSeasonalFactors`. -/
def calculateSeasonalFactors : Season → SeasonalFactors
  | .Spring => { exercise := 1.1, mood := 1.05, outdoor := 1.2 }
  | .Summer => { exercise := 1.2, mood := 1.1, outdoor := 1.5 }
  | .Fall => { exercise := 0.9, mood := 0.95, outdoor := 1.0 }
  | .Winter => { exercise := 0.8, mood := 0.9, outdoor := 0.6 }

/-- TWABehaviorGenerator `generateMotionBehavior` with its draw explicit. -/
def generateMotionBehavior (demoFactors : DemoFactors) (seasonalFactors : SeasonalFactors)
    (r : ℚ) : ℚ :=
  let fitnessMultiplier := lookupD [("Low", 0.3), ("Medium", 0.6), ("High", 1.0)]
    demoFactors.fitness 0.5
  let ageEffect := max 0.3 (1 - (demoFactors.age - 25) / 100)
  let incomeEffect := min 1.5 (0.5 + demoFactors.income / 100000)
  let educationEffect := lookupD
    [("Less than HS", 0.7), ("High School", 0.8), ("Some College", 0.9), ("Bachelor+", 1.1)]
    demoFactors.education 0.8
  let baseDays := 2 + fitnessMultiplier * ageEffect * incomeEffect * educationEffect * 3
  let baseDays := baseDays * seasonalFactors.exercise
  let randomFactor := 0.8 + r * 0.4
  let baseDays := baseDays * randomFactor
  jsRound (max 0 (min 7 baseDays))

/-- Hours/quality pair returned by `generateSleepBehavior`. -/
structure SleepResult where
  hours : ℚ
  quality : ℚ
deriving DecidableEq, Repr

/-- TWABehaviorGenerator `generateSleepBehavior`. -/
def generateSleepBehavior (demoFactors : DemoFactors) (motionDays : ℚ)
    (hoursR qualityR : ℚ) : SleepResult :=
  let baseHours : ℚ := if 65 < demoFactors.age then 7.0
    else if demoFactors.age < 30 then 8.0 else 7.5
  let baseQuality : ℚ := if 65 < demoFactors.age then 6.5
    else if demoFactors.age < 30 then 7.5 else 7
  let sleepTypeEffect : ℚ × ℚ := lookupD
    [("Regular", (1.0, 1.0)), ("Short", (0.7, 0.6)), ("Irregular", (0.8, 0.7))]
    demoFactors.sleepType (1.0, 1.0)
  let exerciseEffect := 1 + (motionDays - 3) * 0.1
  let incomeEffect := 0.9 + demoFactors.income / 200000
  let hours := baseHours * sleepTypeEffect.1 * exerciseEffect * incomeEffect
  let quality := baseQuality * sleepTypeEffect.2 * exerciseEffect * incomeEffect
  let hoursRandom := 0.9 + hoursR * 0.2
  let qualityRandom := 0.8 + qualityR * 0.4
  { hours := max 4 (min 10 (hours * hoursRandom))
    quality := max 1 (min 10 (quality * qualityRandom)) }

/-- TWABehaviorGenerator `generateHydrationBehavior`. -/
def generateHydrationBehavior (demoFactors : DemoFactors) (sleepQuality : SleepResult)
    (r : ℚ) : ℚ :=
  let baseCups : ℚ := 6
  let sleepEffect := 0.8 + (sleepQuality.quality / 10) * 0.4
  let ageEffect := max 0.7 (1 - (demoFactors.age - 30) / 200)
  let educationEffect := lookupD
    [("Less than HS", 0.8), ("High School", 0.9), ("Some College", 1.0), ("Bachelor+", 1.1)]
    demoFactors.education 1.0
  let baseCups := baseCups * (sleepEffect * ageEffect * educationEffect)
  let randomFactor := 0.8 + r * 0.4
  let baseCups := baseCups * randomFactor
  max 2 (min 12 (jsRound baseCups))

/-- TWABehaviorGenerator `generateDietBehavior`. -/
def generateDietBehavior (demoFactors : DemoFactors) (motionDays : ℚ) (r : ℚ) : ℚ :=
  let baseScore : ℚ := 5
  let exerciseEffect := 0.8 + (motionDays / 7) * 0.4
  let educationEffect := lookupD
    [("Less than HS", 0.6), ("High School", 0.8), ("Some College", 1.0), ("Bachelor+", 1.2)]
    demoFactors.education 1.0
  let incomeEffect := 0.7 + demoFactors.income / 150000
  let ageEffect := min 1.3 (0.8 + demoFactors.age / 200)
  let baseScore := baseScore * (exerciseEffect * educationEffect * incomeEffect * ageEffect)
  let randomFactor := 0.7 + r * 0.6
  let baseScore := baseScore * randomFactor
  max 1 (min 10 (jsRound (baseScore * 10) / 10))

/-- TWABehaviorGenerator `generateMeditationBehavior`. -/
def generateMeditationBehavior (demoFactors : DemoFactors) (dietScore : ℚ) (r : ℚ) : ℚ :=
  let baseMinutes : ℚ := 30
  let dietEffect := 0.5 + (dietScore / 10) * 0.5
  let ageEffect := min 2.0 (0.5 + demoFactors.age / 100)
  let educationEffect := lookupD
    [("Less than HS", 0.3), ("High School", 0.6), ("Some College", 1.0), ("Bachelor+", 1.5)]
    demoFactors.education 1.0
  let incomeEffect := 0.6 + demoFactors.income / 200000
  let baseMinutes := baseMinutes * (dietEffect * ageEffect * educationEffect * incomeEffect)
  let randomFactor := 0.2 + r * 1.6
  let baseMinutes := baseMinutes * randomFactor
  max 0 (min 300 (jsRound baseMinutes))

/-- TWABehaviorGenerator `generateSmokingBehavior` (the education adjustment is
commented out in the source). -/
def generateSmokingBehavior (demoFactors : DemoFactors) (r : ℚ) : String :=
  let smokingStatuses := ["Never", "Former", "Current"]
  let probabilities : List ℚ := [0.65, 0.25, 0.10]
  let probabilities :=
    if 75000 < demoFactors.income then ([0.80, 0.15, 0.05] : List ℚ)
    else if demoFactors.income < 35000 then ([0.50, 0.30, 0.20] : List ℚ)
    else probabilities
  let probabilities :=
    if 50 < demoFactors.age then ([0.60, 0.30, 0.10] : List ℚ) else probabilities
  weightedRandomChoice smokingStatuses probabilities r

/-- TWABehaviorGenerator `generateAlcoholBehavior`. -/
def generateAlcoholBehavior (demoFactors : DemoFactors) (smokingStatus : String)
    (r : ℚ) : ℚ :=
  let baseDrinks : ℚ := 2
  let smokingEffect := lookupD [("Never", 1.0), ("Former", 1.2), ("Current", 1.5)]
    smokingStatus 1.0
  let ageEffect : ℚ :=
    if demoFactors.age < 30 then 1.5 else if 50 < demoFactors.age then 0.7 else 1.0
  let incomeEffect := 0.5 + demoFactors.income / 100000
  let educationEffect := lookupD
    [("Less than HS", 0.7), ("High School", 0.9), ("Some College", 1.1), ("Bachelor+", 1.3)]
    demoFactors.education 1.0
  let baseDrinks := baseDrinks * (smokingEffect * ageEffect * incomeEffect * educationEffect)
  let randomFactor := 0.3 + r * 1.4
  let baseDrinks := baseDrinks * randomFactor
  max 0 (min 35 (jsRound baseDrinks))

/-- TWABehaviorGenerator `generateSugarBehavior`. -/
def generateSugarBehavior (demoFactors : DemoFactors) (dietScore : ℚ) (r : ℚ) : ℚ :=
  let baseGrams : ℚ := 50
  let dietEffect := 2 - dietScore / 10
  let educationEffect := lookupD
    [("Less than HS", 1.3), ("High School", 1.1), ("Some College", 1.0), ("Bachelor+", 0.8)]
    demoFactors.education 1.0
  let ageEffect := max 0.6 (1.5 - demoFactors.age / 100)
  let baseGrams := baseGrams * (dietEffect * educationEffect * ageEffect)
  let randomFactor := 0.6 + r * 0.8
  let baseGrams := baseGrams * randomFactor
  max 10 (min 150 (jsRound baseGrams))

/-- TWABehaviorGenerator `generateSodiumBehavior`. -/
def generateSodiumBehavior (demoFactors : DemoFactors) (dietScore : ℚ) (r : ℚ) : ℚ :=
  let baseGrams : ℚ := 3.5
  let dietEffect := 2 - dietScore / 10
  let ageEffect := min 1.5 (0.8 + demoFactors.age / 200)
  let incomeEffect := 1.5 - demoFactors.income / 200000
  let baseGrams := baseGrams * (dietEffect * ageEffect * incomeEffect)
  let randomFactor := 0.7 + r * 0.6
  let baseGrams := baseGrams * randomFactor
  max 1 (min 8 (jsRound (baseGrams * 10) / 10))

/-- TWABehaviorGenerator `generateProcessedFoods`. -/
def generateProcessedFoods (demoFactors : DemoFactors) (dietScore : ℚ) (r : ℚ) : ℚ :=
  let baseServings : ℚ := 5
  let dietEffect := 2 - dietScore / 10
  let incomeEffect := 1.5 - demoFactors.income / 150000
  let educationEffect := lookupD
    [("Less than HS", 1.4), ("High School", 1.2), ("Some College", 1.0), ("Bachelor+", 0.7)]
    demoFactors.education 1.0
  let baseServings := baseServings * (dietEffect * incomeEffect * educationEffect)
  let randomFactor := 0.6 + r * 0.8
  let baseServings := baseServings * randomFactor
  max 0 (min 20 (jsRound baseServings))

/-- TWABehaviorGenerator `generateSocialConnections`. -/
def generateSocialConnections (demoFactors : DemoFactors) (r : ℚ) : ℚ :=
  let baseConnections : ℚ := 3
  let urbanEffect := lookupD [("Urban", 1.3), ("Suburban", 1.1), ("Rural", 0.8)]
    demoFactors.urbanRural 1.0
  let incomeEffect := 0.7 + demoFactors.income / 200000
  let ageEffect := max 0.6 (1.2 - |demoFactors.age - 40| / 50)
  let educationEffect := lookupD
    [("Less than HS", 0.8), ("High School", 0.9), ("Some College", 1.0), ("Bachelor+", 1.2)]
    demoFactors.education 1.0
  let baseConnections := baseConnections * (urbanEffect * incomeEffect * ageEffect * educationEffect)
  let randomFactor := 0.6 + r * 0.8
  let baseConnections := baseConnections * randomFactor
  max 0 (min 10 (jsRound baseConnections))

/-- TWABehaviorGenerator `generateNatureConnection`. -/
def generateNatureConnection (demoFactors : DemoFactors) (seasonalFactors : SeasonalFactors)
    (r : ℚ) : ℚ :=
  let baseMinutes : ℚ := 60
  let baseMinutes := baseMinutes * seasonalFactors.outdoor
  let urbanEffect := lookupD [("Urban", 0.5), ("Suburban", 0.8), ("Rural", 1.5)]
    demoFactors.urbanRural 1.0
  let incomeEffect := 0.6 + demoFactors.income / 200000
  let ageEffect := min 1.5 (0.7 + demoFactors.age / 150)
  let baseMinutes := baseMinutes * (urbanEffect * incomeEffect * ageEffect)
  let randomFactor := 0.4 + r * 1.2
  let baseMinutes := baseMinutes * randomFactor
  max 0 (min 300 (jsRound baseMinutes))

/-- TWABehaviorGenerator `generateCulturalActivities`. -/
def generateCulturalActivities (demoFactors : DemoFactors) (r : ℚ) : ℚ :=
  let baseHours : ℚ := 2
  let educationEffect := lookupD
    [("Less than HS", 0.5), ("High School", 0.8), ("Some College", 1.0), ("Bachelor+", 1.5)]
    demoFactors.education 1.0
  let incomeEffect := 0.5 + demoFactors.income / 150000
  let ageEffect := max 0.6 (1.2 - |demoFactors.age - 45| / 60)
  let baseHours := baseHours * (educationEffect * incomeEffect * ageEffect)
  let randomFactor := 0.3 + r * 1.4
  let baseHours := baseHours * randomFactor
  max 0 (min 20 (jsRound baseHours))

/-- TWABehaviorGenerator `generatePurposeMeaning`. -/
def generatePurposeMeaning (demoFactors : DemoFactors) (socialConnections meditationMins : ℚ)
    (r : ℚ) : ℚ :=
  let baseScore : ℚ := 5
  let socialEffect := 0.5 + (socialConnections / 10) * 0.5
  let meditationEffect := 0.6 + (meditationMins / 300) * 0.4
  let ageEffect := min 1.5 (0.7 + demoFactors.age / 100)
  let educationEffect := lookupD
    [("Less than HS", 0.8), ("High School", 0.9), ("Some College", 1.0), ("Bachelor+", 1.1)]
    demoFactors.education 1.0
  let baseScore := baseScore * (socialEffect * meditationEffect * ageEffect * educationEffect)
  let randomFactor := 0.6 + r * 0.8
  let baseScore := baseScore * randomFactor
  max 1 (min 10 (jsRound (baseScore * 10) / 10))

/-- TWABehaviorGenerator `generateMonthlyTWABehaviors`: the chained monthly
behavior sampler (the `month` argument is accepted but, as in the source,
unused). -/
def generateMonthlyTWABehaviors (personDemographics : Demographics) (_month : ℕ)
    (season : Season) (noise : BehaviorNoise) : TWABehaviors :=
  let demoFactors := calculateDemographicFactors personDemographics
  let seasonalFactors := calculateSeasonalFactors season
  let motionDays := generateMotionBehavior demoFactors seasonalFactors noise.motion_r
  let sleepQuality := generateSleepBehavior demoFactors motionDays
    noise.sleep_hours_r noise.sleep_quality_r
  let hydration := generateHydrationBehavior demoFactors sleepQuality noise.hydration_r
  let dietScore := generateDietBehavior demoFactors motionDays noise.diet_r
  let meditationMins := generateMeditationBehavior demoFactors dietScore noise.meditation_r
  let smokingStatus := generateSmokingBehavior demoFactors noise.smoking_r
  let alcoholDrinks := generateAlcoholBehavior demoFactors smokingStatus noise.alcohol_r
  let sugarGrams := generateSugarBehavior demoFactors dietScore noise.sugar_r
  let sodiumGrams := generateSodiumBehavior demoFactors dietScore noise.sodium_r
  let processedServings := generateProcessedFoods demoFactors dietScore noise.processed_r
  let socialConnections := generateSocialConnections demoFactors noise.social_r
  let natureMinutes := generateNatureConnection demoFactors seasonalFactors noise.nature_r
  let culturalEngagement := generateCulturalActivities demoFactors noise.cultural_r
  let purposeScore := generatePurposeMeaning demoFactors socialConnections meditationMins
    noise.purpose_r
  { motion_days_week := motionDays
    sleep_hours := sleepQuality.hours
    sleep_quality_score := sleepQuality.quality
    hydration_cups_day := hydration
    diet_mediterranean_score := dietScore
    meditation_minutes_week := meditationMins
    smoking_status := smokingStatus
    alcohol_drinks_week := alcoholDrinks
    added_sugar_grams_day := sugarGrams
    sodium_grams_day := sodiumGrams
    processed_food_servings_week := processedServings
    social_connections_count := socialConnections
    nature_minutes_week := natureMinutes
    cultural_hours_week := culturalEngagement
    purpose_meaning_score := purposeScore }

/-- Biological-age annual effect sizes (OutcomeGenerator
`loadResearchEffectSizes().biologicalAgeEffects`). -/
structure BiologicalAgeEffects where
  motion_high : ℚ
  diet_mediterranean : ℚ
  meditation_regular : ℚ
  smoking_current : ℚ
  purpose_high : ℚ
  social_connected : ℚ
  sleep_quality : ℚ
  alcohol_excess : ℚ
  processed_foods : ℚ
deriving DecidableEq, Repr

/-- Mortality hazard-ratio-like factors (OutcomeGenerator
`loadResearchEffectSizes().mortalityRiskEffects`). -/
structure MortalityRiskEffects where
  purpose_high : ℚ
  social_isolated : ℚ
  smoking_current : ℚ
  exercise_regular : ℚ
  diet_quality_high : ℚ
  meditation_practice : ℚ
deriving DecidableEq, Repr

/-- Biomarker adjustment factors (OutcomeGenerator
`loadResearchEffectSizes().biomarkerEffects`). -/
structure BiomarkerEffects where
  crp_reduction_exercise : ℚ
  il6_reduction_meditation : ℚ
  telomere_exercise : ℚ
  cortisol_nature : ℚ
  igf1_caloric_restriction : ℚ
deriving DecidableEq, Repr

/-- The research effect tables built once in the OutcomeGenerator constructor. -/
structure ResearchEffects where
  biologicalAgeEffects : BiologicalAgeEffects
  mortalityRiskEffects : MortalityRiskEffects
  biomarkerEffects : BiomarkerEffects
deriving DecidableEq, Repr

/-- OutcomeGenerator `loadResearchEffectSizes`. -/
def loadResearchEffectSizes : ResearchEffects :=
  { biologicalAgeEffects :=
      { motion_high := -1.2
        diet_mediterranean := -2.3
        meditation_regular := -1.8
        smoking_current := 5.3
        purpose_high := -3.1
        social_connected := -1.5
        sleep_quality := -0.5
        alcohol_excess := 2.1
        processed_foods := 1.7 }
    mortalityRiskEffects :=
      { purpose_high := 0.57
        social_isolated := 1.91
        smoking_current := 2.24
        exercise_regular := 0.72
        diet_quality_high := 0.70
        meditation_practice := 0.82 }
    biomarkerEffects :=
      { crp_reduction_exercise := -0.25
        il6_reduction_meditation := -0.30
        telomere_exercise := 0.15
        cortisol_nature := -0.30
        igf1_caloric_restriction := -0.18 } }

/-- OutcomeGenerator `calculateBiologicalAge`: additive annual effect budget
from threshold rules, converted to a cumulative monthly effect and added to
the advancing chronological age; floored at 18. -/
def calculateBiologicalAge (chronologicalAge : ℚ) (behaviors : TWABehaviors)
    (monthsElapsed : ℕ) : ℚ :=
  let effects := loadResearchEffectSizes.biologicalAgeEffects
  let ageModification : ℚ := 0
  let ageModification :=
    if 4 ≤ behaviors.motion_days_week then ageModification + effects.motion_high
    else ageModification
  let ageModification :=
    if 7 ≤ behaviors.diet_mediterranean_score then ageModification + effects.diet_mediterranean
    else ageModification
  let ageModification :=
    if 150 ≤ behaviors.meditation_minutes_week then ageModification + effects.meditation_regular
    else ageModification
  let ageModification :=
    if 7 ≤ behaviors.sleep_quality_score then
      ageModification + effects.sleep_quality * behaviors.sleep_hours
    else ageModification
  let ageModification :=
    if 8 ≤ behaviors.purpose_meaning_score then ageModification + effects.purpose_high
    else ageModification
  let ageModification :=
    if 4 ≤ behaviors.social_connections_count then ageModification + effects.social_connected
    else ageModification
  let ageModification :=
    if behaviors.smoking_status = "Current" then ageModification - effects.smoking_current
    else ageModification
  let ageModification :=
    if 14 < behaviors.alcohol_drinks_week then ageModification - effects.alcohol_excess
    else ageModification
  let ageModification :=
    if 10 < behaviors.processed_food_servings_week then ageModification - effects.processed_foods
    else ageModification
  let monthlyEffect := ageModification / 12
  let cumulativeEffect := monthlyEffect * (monthsElapsed : ℚ)
  let biologicalAge := chronologicalAge + (monthsElapsed : ℚ) / 12 + cumulativeEffect
  max 18 biologicalAge

/-- OutcomeGenerator `calculateMortalityRisk`.  The age-exponential term
`Math.pow(1.1, (biologicalAge - 30) / 10)` is `pow11 ((biologicalAge - 30) / 10)`;
the `demographics` argument is accepted but, as in the source, unused. -/
def calculateMortalityRisk (pow11 : ℚ → ℚ) (_demographics : Demographics)
    (behaviors : TWABehaviors) (biologicalAge : ℚ) : ℚ :=
  let effects := loadResearchEffectSizes.mortalityRiskEffects
  let riskScore : ℚ := 1.0
  let riskScore :=
    if 8 ≤ behaviors.purpose_meaning_score then riskScore * effects.purpose_high else riskScore
  let riskScore :=
    if 3 ≤ behaviors.motion_days_week then riskScore * effects.exercise_regular else riskScore
  let riskScore :=
    if 7 ≤ behaviors.diet_mediterranean_score then riskScore * effects.diet_quality_high
    else riskScore
  let riskScore :=
    if 150 ≤ behaviors.meditation_minutes_week then riskScore * effects.meditation_practice
    else riskScore
  let riskScore :=
    if behaviors.smoking_status = "Current" then riskScore * effects.smoking_current
    else riskScore
  let riskScore :=
    if behaviors.social_connections_count < 2 then riskScore * effects.social_isolated
    else riskScore
  let ageEffect := pow11 ((biologicalAge - 30) / 10)
  let riskScore := riskScore * ageEffect
  max 0.1 (min 10 riskScore)

/-- The five biomarker levels produced by `generateBiomarkers`. -/
structure Biomarkers where
  crp : ℚ
  il6 : ℚ
  igf1 : ℚ
  gdf15 : ℚ
  cortisol : ℚ
deriving DecidableEq, Repr

/-- OutcomeGenerator `getBaseCRP`. -/
def getBaseCRP (age : ℚ) (gender : String) : ℚ :=
  let baseValue : ℚ := if gender = "Female" then 2.5 else 2.0
  baseValue + (age - 30) * 0.05

/-- OutcomeGenerator `getBaseIL6`. -/
def getBaseIL6 (age : ℚ) (gender : String) : ℚ :=
  let baseValue : ℚ := if gender = "Female" then 1.8 else 1.5
  baseValue + (age - 30) * 0.03

/-- OutcomeGenerator `getBaseIGF1`. -/
def getBaseIGF1 (age : ℚ) (gender : String) : ℚ :=
  let baseValue : ℚ := if gender = "Male" then 200 else 180
  max 100 (baseValue - (age - 30) * 2)

/-- OutcomeGenerator `getBaseGDF15`. -/
def getBaseGDF15 (age : ℚ) (gender : String) : ℚ :=
  let baseValue : ℚ := if gender = "Female" then 800 else 700
  baseValue + (age - 30) * 15

/-- OutcomeGenerator `getBaseCortisol`. -/
def getBaseCortisol (age : ℚ) (gender : String) : ℚ :=
  let baseValue : ℚ := if gender = "Female" then 12 else 10
  baseValue + (age - 30) * 0.1

/-- OutcomeGenerator `getBaseGripStrength`. -/
def getBaseGripStrength (age : ℚ) (gender : String) : ℚ :=
  let baseValue : ℚ := if gender = "Male" then 45 else 28
  max 10 (baseValue - (age - 30) * 0.3)

/-- OutcomeGenerator `getBaseGaitSpeed`. -/
def getBaseGaitSpeed (age : ℚ) (_gender : String) : ℚ :=
  let baseValue : ℚ := 1.4
  max 0.5 (baseValue - (age - 30) * 0.005)

/-- OutcomeGenerator `getBaseBalance`. -/
def getBaseBalance (age : ℚ) (_gender : String) : ℚ :=
  let baseValue : ℚ := 8
  max 1 (baseValue - (age - 30) * 0.02)

/-- OutcomeGenerator `getBaseFrailty`. -/
def getBaseFrailty (age : ℚ) : ℚ :=
  min 1 (max 0 ((age - 30) * 0.01))

/-- OutcomeGenerator `generateBiomarkers` with the shared variation draw
explicit (`variation = 0.8 + r * 0.4`). -/
def generateBiomarkers (demographics : Demographics) (behaviors : TWABehaviors)
    (_biologicalAge : ℚ) (r : ℚ) : Biomarkers :=
  let effects := loadResearchEffectSizes.biomarkerEffects
  let baseCRP := getBaseCRP demographics.age_numeric demographics.gender
  let baseIL6 := getBaseIL6 demographics.age_numeric demographics.gender
  let baseIGF1 := getBaseIGF1 demographics.age_numeric demographics.gender
  let baseGDF15 := getBaseGDF15 demographics.age_numeric demographics.gender
  let baseCortisol := getBaseCortisol demographics.age_numeric demographics.gender
  let crp := baseCRP
  let il6 := baseIL6
  let igf1 := baseIGF1
  let gdf15 := baseGDF15
  let cortisol := baseCortisol
  let crp := if 4 ≤ behaviors.motion_days_week then crp * (1 + effects.crp_reduction_exercise)
    else crp
  let igf1 := if 4 ≤ behaviors.motion_days_week then igf1 * (1 + effects.telomere_exercise)
    else igf1
  let il6 := if 150 ≤ behaviors.meditation_minutes_week then
      il6 * (1 + effects.il6_reduction_meditation)
    else il6
  let cortisol := if 150 ≤ behaviors.meditation_minutes_week then
      cortisol * (1 + effects.cortisol_nature)
    else cortisol
  let cortisol := if 120 ≤ behaviors.nature_minutes_week then
      cortisol * (1 + effects.cortisol_nature)
    else cortisol
  let crp := if 7 ≤ behaviors.diet_mediterranean_score then crp * 0.8 else crp
  let il6 := if 7 ≤ behaviors.diet_mediterranean_score then il6 * 0.85 else il6
  let stressLevel := max 0 (10 - behaviors.meditation_minutes_week / 30 -
    behaviors.nature_minutes_week / 60)
  let cortisol := cortisol * (1 + stressLevel * 0.1)
  let variation := 0.8 + r * 0.4
  { crp := max 0.1 (crp * variation)
    il6 := max 0.1 (il6 * variation)
    igf1 := max 50 (igf1 * variation)
    gdf15 := max 100 (gdf15 * variation)
    cortisol := max 5 (cortisol * variation) }

/-- OutcomeGenerator `calculateCognitiveScore`. -/
def calculateCognitiveScore (demographics : Demographics) (behaviors : TWABehaviors)
    (biologicalAge : ℚ) : ℚ :=
  let cognitive : ℚ := 100
  let cognitive := cognitive - (biologicalAge - 30) * 0.5
  let educationEffect := lookupD
    [("Less than HS", 0.8), ("High School", 0.9), ("Some College", 1.0), ("Bachelor+", 1.1)]
    demographics.education 1.0
  let cognitive := cognitive * educationEffect
  let cognitive := if 4 ≤ behaviors.motion_days_week then cognitive * 1.1 else cognitive
  let cognitive := cognitive + behaviors.meditation_minutes_week * 0.1
  let cognitive := cognitive + behaviors.social_connections_count * 2
  max 50 (min 150 cognitive)

/-- OutcomeGenerator `calculateProcessingSpeed`. -/
def calculateProcessingSpeed (_demographics : Demographics) (behaviors : TWABehaviors)
    (biologicalAge : ℚ) : ℚ :=
  let processingSpeed : ℚ := 100
  let processingSpeed := processingSpeed - (biologicalAge - 25) * 0.3
  let processingSpeed := if 4 ≤ behaviors.motion_days_week then processingSpeed * 1.05
    else processingSpeed
  let processingSpeed := processingSpeed + (behaviors.hydration_cups_day - 6) * 1
  let processingSpeed := if 7 ≤ behaviors.sleep_quality_score then processingSpeed * 1.05
    else processingSpeed
  max 50 (min 150 processingSpeed)

/-- The functional/cognitive measures produced by `generateFunctionalMeasures`. -/
structure FunctionalMeasures where
  grip_strength : ℚ
  gait_speed : ℚ
  balance : ℚ
  frailty : ℚ
  cognitive : ℚ
  processing_speed : ℚ
deriving DecidableEq, Repr

/-- OutcomeGenerator `generateFunctionalMeasures`. -/
def generateFunctionalMeasures (demographics : Demographics) (behaviors : TWABehaviors)
    (biologicalAge : ℚ) : FunctionalMeasures :=
  let baseGripStrength := getBaseGripStrength demographics.age_numeric demographics.gender
  let baseGaitSpeed := getBaseGaitSpeed demographics.age_numeric demographics.gender
  let baseBalance := getBaseBalance demographics.age_numeric demographics.gender
  let baseFrailty := getBaseFrailty demographics.age_numeric
  let gripStrength := baseGripStrength
  let gaitSpeed := baseGaitSpeed
  let balance := baseBalance
  let frailty := baseFrailty
  let gripStrength := if 4 ≤ behaviors.motion_days_week then gripStrength * 1.15 else gripStrength
  let gaitSpeed := if 4 ≤ behaviors.motion_days_week then gaitSpeed * 1.1 else gaitSpeed
  let balance := if 4 ≤ behaviors.motion_days_week then balance * 1.1 else balance
  let frailty := if 4 ≤ behaviors.motion_days_week then frailty * 0.8 else frailty
  let gripStrength := if 7 ≤ behaviors.diet_mediterranean_score then gripStrength * 1.05
    else gripStrength
  let gaitSpeed := if 7 ≤ behaviors.diet_mediterranean_score then gaitSpeed * 1.05 else gaitSpeed
  let balance := if 7 ≤ behaviors.diet_mediterranean_score then balance * 1.05 else balance
  let frailty := if 7 ≤ behaviors.diet_mediterranean_score then frailty * 0.9 else frailty
  let gripStrength := if 7 ≤ behaviors.sleep_quality_score then gripStrength * 1.05
    else gripStrength
  let gaitSpeed := if 7 ≤ behaviors.sleep_quality_score then gaitSpeed * 1.05 else gaitSpeed
  let balance := if 7 ≤ behaviors.sleep_quality_score then balance * 1.05 else balance
  let frailty := if 7 ≤ behaviors.sleep_quality_score then frailty * 0.95 else frailty
  let frailty := if 4 ≤ behaviors.social_connections_count then frailty * 0.9 else frailty
  let cognitive := calculateCognitiveScore demographics behaviors biologicalAge
  let processingSpeed := calculateProcessingSpeed demographics behaviors biologicalAge
  { grip_strength := max 10 gripStrength
    gait_speed := max 0.5 gaitSpeed
    balance := max 1 (min 10 balance)
    frailty := max 0 (min 1 frailty)
    cognitive := cognitive
    processing_speed := processingSpeed }

/-- The four psychosocial scores produced by `generatePsychosocialOutcomes`. -/
structure PsychosocialOutcomes where
  life_satisfaction : ℚ
  stress : ℚ
  depression_risk : ℚ
  social_support : ℚ
deriving DecidableEq, Repr

/-- OutcomeGenerator `generatePsychosocialOutcomes` (the biomarker argument is
accepted but, as in the source, unused). -/
def generatePsychosocialOutcomes (behaviors : TWABehaviors)
    (_biomarkers : Biomarkers) : PsychosocialOutcomes :=
  let lifeSatisfaction : ℚ := 5
  let lifeSatisfaction := lifeSatisfaction + (behaviors.purpose_meaning_score - 5) * 0.3
  let lifeSatisfaction := lifeSatisfaction + (behaviors.social_connections_count - 3) * 0.2
  let lifeSatisfaction := lifeSatisfaction + (behaviors.motion_days_week - 3) * 0.1
  let lifeSatisfaction := lifeSatisfaction + (behaviors.meditation_minutes_week / 100) * 0.2
  let stress := max 1 (10 - lifeSatisfaction - behaviors.meditation_minutes_week / 50)
  let depressionRisk := max 1 (stress * 0.8 - behaviors.social_connections_count * 0.5)
  let socialSupport := min 10 (behaviors.social_connections_count * 1.5 +
    behaviors.purpose_meaning_score * 0.3)
  { life_satisfaction := max 1 (min 10 lifeSatisfaction)
    stress := max 1 (min 10 stress)
    depression_risk := max 1 (min 10 depressionRisk)
    social_support := max 1 (min 10 socialSupport) }

/-- OutcomeGenerator `calculateEstimatedLifespan` with its variation draw
explicit (`variation = 0.9 + r * 0.2`). -/
def calculateEstimatedLifespan (demographics : Demographics) (mortalityRisk : ℚ)
    (r : ℚ) : ℚ :=
  let baseLifespan : ℚ := if demographics.gender = "Female" then 81 else 76
  let adjustedLifespan := baseLifespan / mortalityRisk
  let variation := 0.9 + r * 0.2
  max 50 (min 100 (adjustedLifespan * variation))

/-- OutcomeGenerator `generateAgingWellnessOutcomes`: the complete monthly
outcome model. -/
def generateAgingWellnessOutcomes (pow11 : ℚ → ℚ) (demographics : Demographics)
    (twaBehaviors : TWABehaviors) (baselineAge : ℚ) (monthsElapsed : ℕ)
    (noise : OutcomeNoise) : WellnessOutcomes :=
  let biologicalAge := calculateBiologicalAge baselineAge twaBehaviors monthsElapsed
  let mortalityRisk := calculateMortalityRisk pow11 demographics twaBehaviors biologicalAge
  let biomarkers := generateBiomarkers demographics twaBehaviors biologicalAge noise.biomarker_r
  let functionalMeasures := generateFunctionalMeasures demographics twaBehaviors biologicalAge
  let psychosocialOutcomes := generatePsychosocialOutcomes twaBehaviors biomarkers
  { biological_age_years := biologicalAge
    biological_age_acceleration := biologicalAge - baselineAge
    mortality_risk_score := mortalityRisk
    estimated_lifespan_years := calculateEstimatedLifespan demographics mortalityRisk
      noise.lifespan_r
    crp_mg_l := biomarkers.crp
    il6_pg_ml := biomarkers.il6
    igf1_ng_ml := biomarkers.igf1
    gdf15_pg_ml := biomarkers.gdf15
    cortisol_ug_dl := biomarkers.cortisol
    grip_strength_kg := functionalMeasures.grip_strength
    gait_speed_ms := functionalMeasures.gait_speed
    balance_score := functionalMeasures.balance
    frailty_index := functionalMeasures.frailty
    cognitive_composite_score := functionalMeasures.cognitive
    processing_speed_score := functionalMeasures.processing_speed
    life_satisfaction_score := psychosocialOutcomes.life_satisfaction
    stress_level_score := psychosocialOutcomes.stress
    depression_risk_score := psychosocialOutcomes.depression_risk
    social_support_score := psychosocialOutcomes.social_support }

/-- The fixed 12-entry month-to-season table of
`LongitudinalTWADataGenerator.monthToSeason`. -/
def seasonsTable : List Season :=
  [.Winter, .Winter, .Spring, .Spring, .Spring, .Summer, .Summer, .Summer,
   .Fall, .Fall, .Fall, .Winter]

/-- LongitudinalDataGenerator `monthToSeason` (`seasons[month % 12]`; the index
is always in bounds, so the `getD` default is never used). -/
def monthToSeason (month : ℕ) : Season :=
  seasonsTable.getD (month % 12) Season.Winter

/-- LongitudinalDataGenerator `generateObservationDate`. -/
def generateObservationDate (month : ℕ) : String :=
  let year := "2024"
  let monthNum := month % 12 + 1
  year ++ "-" ++ padStart (Nat.repr monthNum) 2 '0' ++ "-15"

/-- LongitudinalDataGenerator `calculateHealthyAgingProfile`: weighted sum of
behavioral (40%), biological (40%) and psychosocial (20%) subscores, scaled to
0–100 and clamped. -/
def calculateHealthyAgingProfile (behaviors : TWABehaviors)
    (outcomes : WellnessOutcomes) : ℚ :=
  let behavioralScore :=
    (behaviors.motion_days_week / 7) * 0.15 +
    (behaviors.diet_mediterranean_score / 10) * 0.15 +
    (min behaviors.meditation_minutes_week 300 / 300) * 0.10
  let biologicalScore :=
    max 0 ((85 - outcomes.biological_age_years) / 85) * 0.20 +
    (1 - min outcomes.mortality_risk_score 1) * 0.20
  let psychosocialScore :=
    (outcomes.life_satisfaction_score / 10) * 0.10 +
    (behaviors.purpose_meaning_score / 10) * 0.10
  let totalScore := (behavioralScore + biologicalScore + psychosocialScore) * 100
  min 100 (max 0 totalScore)

/-- LongitudinalDataGenerator `calculateBlueZoneSimilarity`: mean of seven
capped ratio/indicator factors, scaled to 0–100. -/
def calculateBlueZoneSimilarity (behaviors : TWABehaviors)
    (_demographics : Demographics) : ℚ :=
  let similarityFactors : List ℚ :=
    [min (behaviors.diet_mediterranean_score / 8) 1,
     min (behaviors.motion_days_week / 5) 1,
     min (behaviors.meditation_minutes_week / 150) 1,
     min (behaviors.social_connections_count / 4) 1,
     min (behaviors.purpose_meaning_score / 8) 1,
     if behaviors.alcohol_drinks_week ≤ 7 then 1 else 0,
     if behaviors.smoking_status = "Never" then 1 else 0]
  similarityFactors.sum / (similarityFactors.length : ℚ) * 100

/-- One iteration of the `generateCompleteDataset` inner loop: the complete
monthly record for subject `i` at month `m`. -/
def monthlyRecordFor (dr : ℕ → DemoDraws) (br : ℕ → ℕ → BehaviorNoise)
    (onr : ℕ → ℕ → OutcomeNoise) (pow11 : ℚ → ℚ) (i m : ℕ) : MonthlyRecord :=
  let person := generateDemographic i (dr i)
  let baselineAge := person.age_numeric
  let season := monthToSeason m
  let twaBehaviors := generateMonthlyTWABehaviors person m season (br i m)
  let outcomes := generateAgingWellnessOutcomes pow11 person twaBehaviors baselineAge m
    (onr i m)
  { subject_id := person.id
    month := m
    season := season
    observation_date := generateObservationDate m
    demographics := person
    behaviors := twaBehaviors
    outcomes := outcomes
    meets_exercise_guidelines := decide (3 ≤ twaBehaviors.motion_days_week)
    meets_sleep_guidelines :=
      decide (7 ≤ twaBehaviors.sleep_hours) && decide (6 ≤ twaBehaviors.sleep_quality_score)
    high_diet_quality := decide (7 ≤ twaBehaviors.diet_mediterranean_score)
    regular_meditation := decide (150 ≤ twaBehaviors.meditation_minutes_week)
    strong_social_support := decide (4 ≤ twaBehaviors.social_connections_count)
    high_purpose := decide (8 ≤ twaBehaviors.purpose_meaning_score)
    healthy_aging_profile := calculateHealthyAgingProfile twaBehaviors outcomes
    blue_zone_similarity_score := calculateBlueZoneSimilarity twaBehaviors person }

/-- The record list built by the `generateCompleteDataset` loops: for each
subject (in the order produced by `generateCorrelatedDemographics`), one record
per month `0 .. months-1`. -/
def genRecords (config : DatasetConfig) (dr : ℕ → DemoDraws) (br : ℕ → ℕ → BehaviorNoise)
    (onr : ℕ → ℕ → OutcomeNoise) (pow11 : ℚ → ℚ) : List MonthlyRecord :=
  (List.range config.n_subjects).flatMap fun i =>
    (List.range config.months).map fun m => monthlyRecordFor dr br onr pow11 i m

/-- LongitudinalDataGenerator `generateCompleteDataset`.  The source contains
no configuration check and no `throw`, so the error channel of the returned
promise is never used: the result is always `Except.ok`. -/
def generateCompleteDataset (config : DatasetConfig) (dr : ℕ → DemoDraws)
    (br : ℕ → ℕ → BehaviorNoise) (onr : ℕ → ℕ → OutcomeNoise) (pow11 : ℚ → ℚ) :
    Except GenError (List MonthlyRecord) :=
  Except.ok (genRecords config dr br onr pow11)

/-- LongitudinalDataGenerator `educationToNumeric`. -/
def educationToNumeric (education : String) : ℚ :=
  lookupD [("Less than HS", 1), ("High School", 2), ("Some College", 3), ("Bachelor+", 4)]
    education 2

/-- LongitudinalDataGenerator `fitnessToNumeric`. -/
def fitnessToNumeric (fitness : String) : ℚ :=
  lookupD [("Low", 1), ("Medium", 2), ("High", 3)] fitness 2

/-- One step of `calculateDistribution`: `distribution[item] = (distribution[item] || 0) + 1`
on an insertion-ordered string-keyed object. -/
def distributionIncr : List (String × ℚ) → String → List (String × ℚ)
  | [], k => [(k, 1)]
  | (k', v) :: rest, k =>
      if k' = k then (k', v + 1) :: rest else (k', v) :: distributionIncr rest k

/-- LongitudinalDataGenerator `calculateDistribution`: category counts, keys in
first-occurrence order. -/
def calculateDistribution (items : List String) : List (String × ℚ) :=
  items.foldl distributionIncr []

open Classical in
/-- LongitudinalDataGenerator `calculateCorrelation` (Pearson).  Returns 0 for
empty or unequal-length inputs and when the denominator is zero; the indexed
sum `Σ xᵢ·yᵢ` is a zip (exact on the guard-passing equal-length inputs). -/
noncomputable def calculateCorrelation (x y : List ℚ) : ℝ :=
  if x.length ≠ y.length ∨ x.length = 0 then 0 else
  let n : ℚ := x.length
  let sumX := x.sum
  let sumY := y.sum
  let sumXY := ((x.zip y).map fun p => p.1 * p.2).sum
  let sumXX := (x.map fun xi => xi * xi).sum
  let sumYY := (y.map fun yi => yi * yi).sum
  let numerator := n * sumXY - sumX * sumY
  let denominator :=
    Real.sqrt (((n * sumXX - sumX * sumX) * (n * sumYY - sumY * sumY) : ℚ) : ℝ)
  if denominator = 0 then 0 else (numerator : ℝ) / denominator

/-- LongitudinalDataGenerator `calculateMeanDifference`. -/
def calculateMeanDifference (group1 group2 : List ℚ) : ℚ :=
  if group1.length = 0 ∨ group2.length = 0 then 0 else
  let mean1 := group1.sum / (group1.length : ℚ)
  let mean2 := group2.sum / (group2.length : ℚ)
  mean1 - mean2

/-- LongitudinalDataGenerator `getExpectedAgeDistribution`. -/
def getExpectedAgeDistribution : List (String × ℚ) :=
  [("18-24", 11), ("25-34", 14), ("35-44", 13), ("45-54", 12), ("55-64", 13),
   ("65-74", 11), ("75+", 7)]

/-- LongitudinalDataGenerator `kolmogorovSmirnovTest`: max absolute difference
of category proportions.  On an empty observed distribution the proportions
are `0/0` (JS NaN), which propagates to a `none` result. -/
def kolmogorovSmirnovTest (observed expected : List (String × ℚ)) : Option ℚ :=
  let totalObserved := (observed.map Prod.snd).sum
  let totalExpected := (expected.map Prod.snd).sum
  let allKeys := setDedup (observed.map Prod.fst ++ expected.map Prod.fst)
  allKeys.foldl (fun maxDifference key =>
    let observedProp := jsDiv (lookupD observed key 0) totalObserved
    let expectedProp := jsDiv (lookupD expected key 0) totalExpected
    jsMax maxDifference (jsAbs (jsSub observedProp expectedProp))) (some 0)

/-- The `subjects` map of `validateDemographicAccuracy`: first record's
demographics per subject identifier, in first-seen order. -/
def firstBySubject (dataset : List MonthlyRecord) : List (String × Demographics) :=
  dataset.foldl (fun subjects record =>
    if (subjects.lookup record.subject_id).isSome then subjects
    else subjects ++ [(record.subject_id, record.demographics)]) []

/-- Result shape of `validateDemographicAccuracy`. -/
structure DemographicAccuracy where
  age_distribution_ks_test : Option ℚ
  income_education_correlation : ℝ
  fitness_age_relationship : ℝ

/-- LongitudinalDataGenerator `validateDemographicAccuracy`. -/
noncomputable def validateDemographicAccuracy (dataset : List MonthlyRecord) :
    DemographicAccuracy :=
  let demographics := (firstBySubject dataset).map Prod.snd
  let ageGroups := demographics.map (·.age_group)
  let ageDistribution := calculateDistribution ageGroups
  let incomeEducationCorr := calculateCorrelation
    (demographics.map (·.income_numeric))
    (demographics.map fun d => educationToNumeric d.education)
  let fitnessAgeCorr := calculateCorrelation
    (demographics.map (·.age_numeric))
    (demographics.map fun d => fitnessToNumeric d.fitness_level)
  { age_distribution_ks_test := kolmogorovSmirnovTest ageDistribution getExpectedAgeDistribution
    income_education_correlation := incomeEducationCorr
    fitness_age_relationship := fitnessAgeCorr }

/-- Result shape of `validateBehaviorCorrelations`. -/
structure BehaviorCorrelations where
  exercise_sleep_correlation : ℝ
  diet_meditation_correlation : ℝ
  social_purpose_correlation : ℝ

/-- LongitudinalDataGenerator `validateBehaviorCorrelations`. -/
noncomputable def validateBehaviorCorrelations (dataset : List MonthlyRecord) :
    BehaviorCorrelations :=
  { exercise_sleep_correlation := calculateCorrelation
      (dataset.map (·.behaviors.motion_days_week))
      (dataset.map (·.behaviors.sleep_quality_score))
    diet_meditation_correlation := calculateCorrelation
      (dataset.map (·.behaviors.diet_mediterranean_score))
      (dataset.map (·.behaviors.meditation_minutes_week))
    social_purpose_correlation := calculateCorrelation
      (dataset.map (·.behaviors.social_connections_count))
      (dataset.map (·.behaviors.purpose_meaning_score)) }

/-- Result shape of `validateOutcomeValidity`. -/
structure OutcomeValidity where
  biological_age_effects : ℚ
  mortality_risk_factors : ℚ
  purpose_longevity_relationship : ℚ
deriving DecidableEq, Repr

/-- LongitudinalDataGenerator `validateOutcomeValidity`. -/
def validateOutcomeValidity (dataset : List MonthlyRecord) : OutcomeValidity :=
  let highExercise := dataset.filter fun r => decide (4 ≤ r.behaviors.motion_days_week)
  let lowExercise := dataset.filter fun r => decide (r.behaviors.motion_days_week < 2)
  let exerciseEffect :=
    if 0 < highExercise.length ∧ 0 < lowExercise.length then
      calculateMeanDifference (highExercise.map (·.outcomes.biological_age_years))
        (lowExercise.map (·.outcomes.biological_age_years))
    else 0
  let smokers := dataset.filter fun r => decide (r.behaviors.smoking_status = "Current")
  let nonSmokers := dataset.filter fun r => decide (r.behaviors.smoking_status = "Never")
  let smokingEffect :=
    if 0 < smokers.length ∧ 0 < nonSmokers.length then
      calculateMeanDifference (smokers.map (·.outcomes.mortality_risk_score))
        (nonSmokers.map (·.outcomes.mortality_risk_score))
    else 0
  let highPurpose := dataset.filter fun r => decide (8 ≤ r.behaviors.purpose_meaning_score)
  let lowPurpose := dataset.filter fun r => decide (r.behaviors.purpose_meaning_score ≤ 4)
  let purposeEffect :=
    if 0 < highPurpose.length ∧ 0 < lowPurpose.length then
      calculateMeanDifference (highPurpose.map (·.outcomes.estimated_lifespan_years))
        (lowPurpose.map (·.outcomes.estimated_lifespan_years))
    else 0
  { biological_age_effects := exerciseEffect
    mortality_risk_factors := smokingEffect
    purpose_longevity_relationship := purposeEffect }

/-- The subject grouping `Map` of `validateLongitudinalCoherence`: per distinct
subject identifier (first-seen order), that subject's records in dataset order. -/
def groupBySubject (dataset : List MonthlyRecord) : List (List MonthlyRecord) :=
  (setDedup (dataset.map (·.subject_id))).map fun id =>
    dataset.filter fun r => decide (r.subject_id = id)

/-- LongitudinalDataGenerator `calculateVariance`. -/
def calculateVariance (values : List ℚ) : ℚ :=
  if values.length = 0 then 0 else
  let mean := values.sum / (values.length : ℚ)
  ((values.map fun val => (val - mean) ^ 2).sum) / (values.length : ℚ)

/-- LongitudinalDataGenerator `calculateLinearSlope`.  A `0/0` slope is NaN in
JS and is mapped to 0 by the source's `isNaN` check; a `c/0` slope with
`c ≠ 0` is ±Infinity (not NaN), modelled as `none`. -/
def calculateLinearSlope (x y : List ℚ) : Option ℚ :=
  if x.length ≠ y.length ∨ x.length < 2 then some 0 else
  let n : ℚ := x.length
  let sumX := x.sum
  let sumY := y.sum
  let sumXY := ((x.zip y).map fun p => p.1 * p.2).sum
  let sumXX := (x.map fun xi => xi * xi).sum
  let num := n * sumXY - sumX * sumY
  let den := n * sumXX - sumX * sumX
  if den = 0 then (if num = 0 then some 0 else none) else some (num / den)

/-- LongitudinalDataGenerator `calculateAgingTrajectories`: mean per-subject
OLS slope of biological age against month, over subjects with at least two
records (the source's `isNaN` filter never fires, since `calculateLinearSlope`
already maps its NaN case to 0). -/
def calculateAgingTrajectories (subjectGroups : List (List MonthlyRecord)) : Option ℚ :=
  let acc := subjectGroups.foldl (fun (acc : Option ℚ × ℕ) subjectRecords =>
    if subjectRecords.length < 2 then acc else
    let sortedRecords := subjectRecords.mergeSort fun a b => decide (a.month ≤ b.month)
    let ages := sortedRecords.map (·.outcomes.biological_age_years)
    let months := sortedRecords.map fun r => ((r.month : ℚ))
    let slope := calculateLinearSlope months ages
    (jsAdd acc.1 slope, acc.2 + 1)) (some 0, 0)
  if 0 < acc.2 then acc.1.map fun totalSlope => totalSlope / (acc.2 : ℚ) else some 0

/-- LongitudinalDataGenerator `calculateBehaviorStability`: mean per-subject
stability ratio `1 - variance/mean²` of motion days, over subjects with at
least two records. -/
def calculateBehaviorStability (subjectGroups : List (List MonthlyRecord)) : ℚ :=
  let acc := subjectGroups.foldl (fun (acc : ℚ × ℕ) subjectRecords =>
    if subjectRecords.length < 2 then acc else
    let sortedRecords := subjectRecords.mergeSort fun a b => decide (a.month ≤ b.month)
    let behaviors := sortedRecords.map (·.behaviors.motion_days_week)
    let variance := calculateVariance behaviors
    let mean := behaviors.sum / (behaviors.length : ℚ)
    let stability := if 0 < mean then 1 - variance / (mean * mean) else 0
    (acc.1 + stability, acc.2 + 1)) (0, 0)
  if 0 < acc.2 then acc.1 / (acc.2 : ℚ) else 0

/-- JS `Math.sqrt` on a possibly non-finite number (NaN on negative input). -/
noncomputable def jsSqrt (a : Option ℚ) : Option ℝ :=
  a.bind fun q => if q < 0 then none else some (Real.sqrt (q : ℝ))

/-- LongitudinalDataGenerator `calculateSeasonalVariations`: standard deviation
of the four seasonal group-means of motion days.  A season with no records has
group mean `0/0` (JS NaN), which propagates to a `none` result. -/
noncomputable def calculateSeasonalVariations (dataset : List MonthlyRecord) : Option ℝ :=
  let seasonalData : List (Season × List MonthlyRecord) :=
    [(Season.Spring, dataset.filter fun r => decide (r.season = Season.Spring)),
     (Season.Summer, dataset.filter fun r => decide (r.season = Season.Summer)),
     (Season.Fall, dataset.filter fun r => decide (r.season = Season.Fall)),
     (Season.Winter, dataset.filter fun r => decide (r.season = Season.Winter))]
  let seasonalMeans : List (Option ℚ) := seasonalData.map fun p =>
    jsDiv ((p.2.map (·.behaviors.motion_days_week)).sum) ((p.2.length : ℚ))
  let overallMean : Option ℚ :=
    (jsSum seasonalMeans).map fun s => s / (seasonalMeans.length : ℚ)
  let variance : Option ℚ :=
    (jsSum (seasonalMeans.map fun mn => (jsSub mn overallMean).map fun d => d ^ 2)).map
      fun s => s / (seasonalMeans.length : ℚ)
  jsSqrt variance

/-- Result shape of `validateLongitudinalCoherence`. -/
structure LongitudinalCoherence where
  seasonal_variations : Option ℝ
  aging_trajectories : Option ℚ
  behavior_stability : ℚ

/-- LongitudinalDataGenerator `validateLongitudinalCoherence`. -/
noncomputable def validateLongitudinalCoherence (dataset : List MonthlyRecord) :
    LongitudinalCoherence :=
  { seasonal_variations := calculateSeasonalVariations dataset
    aging_trajectories := calculateAgingTrajectories (groupBySubject dataset)
    behavior_stability := calculateBehaviorStability (groupBySubject dataset) }

/-- types.ts `ValidationResults`. -/
structure ValidationResults where
  demographic_accuracy : DemographicAccuracy
  behavior_correlations : BehaviorCorrelations
  outcome_validity : OutcomeValidity
  longitudinal_coherence : LongitudinalCoherence

/-- The validation report computed by `validateDataset`. -/
noncomputable def validationResults (dataset : List MonthlyRecord) : ValidationResults :=
  { demographic_accuracy := validateDemographicAccuracy dataset
    behavior_correlations := validateBehaviorCorrelations dataset
    outcome_validity := validateOutcomeValidity dataset
    longitudinal_coherence := validateLongitudinalCoherence dataset }

/-- LongitudinalDataGenerator `validateDataset`.  The source performs no
input check and cannot throw, so the result is always `Except.ok`. -/
noncomputable def validateDataset (dataset : List MonthlyRecord) :
    Except GenError ValidationResults :=
  Except.ok (validationResults dataset)

/-! Concrete draw bundles used by witnesses and counterexamples. -/

/-- All-zero demographic draws. -/
def zeroDemoDraws : DemoDraws := ⟨0, 0, 0, 0, 0, 0, 0, 0, 0, 0⟩

/-- All-zero behavior noise. -/
def zeroBehaviorNoise : BehaviorNoise := ⟨0, 0, 0, 0, 0, 0, 0, 0, 0, 0, 0, 0, 0, 0, 0⟩

/-- All-zero outcome noise. -/
def zeroOutcomeNoise : OutcomeNoise := ⟨0, 0⟩

/-- C7: for every non-negative month index, the season is determined by
`m % 12` through the fixed table: residues 0, 1 and 11 map to Winter, 2–4 to
Spring, 5–7 to Summer and 8–10 to Fall. -/
theorem C7_monthToSeason_residue_table (m : ℕ) :
    monthToSeason m =
      if m % 12 ≤ 1 then Season.Winter
      else if m % 12 ≤ 4 then Season.Spring
      else if m % 12 ≤ 7 then Season.Summer
      else if m % 12 ≤ 10 then Season.Fall
      else Season.Winter := by
  have h : m % 12 < 12 := Nat.mod_lt m (by norm_num)
  simp only [monthToSeason, seasonsTable]
  set r := m % 12 with hr
  interval_cases r <;> rfl

/-- C2 counterexample: at the configuration with `subjectCount = 0` and
`months = 12`, `generateCompleteDataset` does not fail with
`InvalidConfiguration`; it returns a successful, empty dataset. -/
theorem C2_counterexample_zero_subjects_no_error :
    generateCompleteDataset ⟨0, 12, true, "json"⟩ (fun _ => zeroDemoDraws)
        (fun _ _ => zeroBehaviorNoise) (fun _ _ => zeroOutcomeNoise) (fun _ => 1)
      = Except.ok ([] : List MonthlyRecord) ∧
    generateCompleteDataset ⟨0, 12, true, "json"⟩ (fun _ => zeroDemoDraws)
        (fun _ _ => zeroBehaviorNoise) (fun _ _ => zeroOutcomeNoise) (fun _ => 1)
      ≠ Except.error GenError.invalidConfiguration := by
  refine ⟨rfl, ?_⟩
  intro h
  exact Except.noConfusion h

/-- C2 amended: `generateCompleteDataset` performs no configuration
validation; for `subjectCount < 1` or `months < 1` it raises no error and
returns a successful result whose dataset is empty (so no records are
produced, but no `InvalidConfiguration` failure occurs either). -/
theorem C2_invalid_config_returns_ok_empty (config : DatasetConfig)
    (dr : ℕ → DemoDraws) (br : ℕ → ℕ → BehaviorNoise) (onr : ℕ → ℕ → OutcomeNoise)
    (pow11 : ℚ → ℚ) (h : config.n_subjects < 1 ∨ config.months < 1) :
    generateCompleteDataset config dr br onr pow11 = Except.ok [] := by
  rcases h with h | h
  · have hn : config.n_subjects = 0 := by omega
    simp [generateCompleteDataset, genRecords, hn]
  · have hm : config.months = 0 := by omega
    simp [generateCompleteDataset, genRecords, hm]

/-- Witness for `C2_invalid_config_returns_ok_empty` at the configuration
`subjectCount = 0, months = 12`. -/
theorem C2_invalid_config_returns_ok_empty_witness :
    generateCompleteDataset ⟨0, 12, false, "csv"⟩ (fun _ => zeroDemoDraws)
        (fun _ _ => zeroBehaviorNoise) (fun _ _ => zeroOutcomeNoise) (fun _ => 1)
      = Except.ok [] :=
  C2_invalid_config_returns_ok_empty ⟨0, 12, false, "csv"⟩ _ _ _ _ (Or.inl (by norm_num))

/-- C3 counterexample: on the empty record collection `validateDataset` does
not fail with `InsufficientData`; it returns a report. -/
theorem C3_counterexample_empty_no_error :
    (∃ r, validateDataset ([] : List MonthlyRecord) = Except.ok r) ∧
    validateDataset ([] : List MonthlyRecord) ≠ Except.error GenError.insufficientData := by
  refine ⟨⟨validationResults [], rfl⟩, ?_⟩
  intro h
  exact Except.noConfusion h

/-- C3 amended: `validateDataset` performs no emptiness check; it returns a
`ValidationReport` for every record collection, the empty one included (the
report's statistics on the empty input are then NaN-valued, but no
`InsufficientData` error is raised). -/
theorem C3_validateDataset_always_returns_report (dataset : List MonthlyRecord) :
    ∃ r, validateDataset dataset = Except.ok r :=
  ⟨validationResults dataset, rfl⟩

/-- Structural fact about every generated record: the stored acceleration is
the stored biological age minus the subject's baseline age. -/
lemma monthlyRecordFor_acceleration (dr : ℕ → DemoDraws) (br : ℕ → ℕ → BehaviorNoise)
    (onr : ℕ → ℕ → OutcomeNoise) (pow11 : ℚ → ℚ) (i m : ℕ) :
    (monthlyRecordFor dr br onr pow11 i m).outcomes.biological_age_acceleration
      = (monthlyRecordFor dr br onr pow11 i m).outcomes.biological_age_years
        - (monthlyRecordFor dr br onr pow11 i m).demographics.age_numeric := rfl

/-- The month field of a generated record. -/
lemma monthlyRecordFor_month (dr : ℕ → DemoDraws) (br : ℕ → ℕ → BehaviorNoise)
    (onr : ℕ → ℕ → OutcomeNoise) (pow11 : ℚ → ℚ) (i m : ℕ) :
    (monthlyRecordFor dr br onr pow11 i m).month = m := rfl

/-- C5 counterexample: in a generated dataset with 13 months, the month-12
record's stored acceleration differs from biological age minus the
chronological age at the observation (`baseline + month/12`): the code
subtracts the plain baseline age instead. -/
theorem C5_counterexample_month12_record :
    ∃ ds, generateCompleteDataset ⟨1, 13, false, "json"⟩ (fun _ => zeroDemoDraws)
        (fun _ _ => zeroBehaviorNoise) (fun _ _ => zeroOutcomeNoise) (fun _ => 1)
      = Except.ok ds ∧
    monthlyRecordFor (fun _ => zeroDemoDraws) (fun _ _ => zeroBehaviorNoise)
        (fun _ _ => zeroOutcomeNoise) (fun _ => 1) 0 12 ∈ ds ∧
    (monthlyRecordFor (fun _ => zeroDemoDraws) (fun _ _ => zeroBehaviorNoise)
        (fun _ _ => zeroOutcomeNoise) (fun _ => 1) 0 12).outcomes.biological_age_acceleration
      ≠ (monthlyRecordFor (fun _ => zeroDemoDraws) (fun _ _ => zeroBehaviorNoise)
          (fun _ _ => zeroOutcomeNoise) (fun _ => 1) 0 12).outcomes.biological_age_years
        - ((monthlyRecordFor (fun _ => zeroDemoDraws) (fun _ _ => zeroBehaviorNoise)
            (fun _ _ => zeroOutcomeNoise) (fun _ => 1) 0 12).demographics.age_numeric
          + ((monthlyRecordFor (fun _ => zeroDemoDraws) (fun _ _ => zeroBehaviorNoise)
              (fun _ _ => zeroOutcomeNoise) (fun _ => 1) 0 12).month : ℚ) / 12) := by
  refine ⟨_, rfl, ?_, ?_⟩
  · simp only [genRecords, List.mem_flatMap, List.mem_map, List.mem_range]
    exact ⟨0, by norm_num, 12, by norm_num, rfl⟩
  · rw [monthlyRecordFor_acceleration, monthlyRecordFor_month]
    intro h
    set X := (monthlyRecordFor (fun _ => zeroDemoDraws) (fun _ _ => zeroBehaviorNoise)
      (fun _ _ => zeroOutcomeNoise) (fun _ => 1) 0 12).outcomes.biological_age_years with hX
    set Y := (monthlyRecordFor (fun _ => zeroDemoDraws) (fun _ _ => zeroBehaviorNoise)
      (fun _ _ => zeroOutcomeNoise) (fun _ => 1) 0 12).demographics.age_numeric with hY
    have h12 : ((12 : ℕ) : ℚ) / 12 = 1 := by norm_num
    rw [h12] at h
    linarith

/-- C5 amended: for every generated monthly record, the stored
biological-age acceleration equals the stored biological age minus the
subject's baseline (month-0 chronological) age — not the chronological age
advanced by `monthsElapsed / 12`. -/
theorem C5_acceleration_eq_bioage_minus_baseline (config : DatasetConfig)
    (dr : ℕ → DemoDraws) (br : ℕ → ℕ → BehaviorNoise) (onr : ℕ → ℕ → OutcomeNoise)
    (pow11 : ℚ → ℚ) (ds : List MonthlyRecord)
    (hds : generateCompleteDataset config dr br onr pow11 = Except.ok ds)
    (r : MonthlyRecord) (hr : r ∈ ds) :
    r.outcomes.biological_age_acceleration
      = r.outcomes.biological_age_years - r.demographics.age_numeric := by
  have hds' : ds = genRecords config dr br onr pow11 := by
    cases hds
    rfl
  subst hds'
  simp only [genRecords, List.mem_flatMap, List.mem_map, List.mem_range] at hr
  obtain ⟨i, _, m, _, rfl⟩ := hr
  rfl

/-- Witness for `C5_acceleration_eq_bioage_minus_baseline` on the first record
of a concrete one-subject, one-month dataset. -/
theorem C5_acceleration_eq_bioage_minus_baseline_witness :
    (monthlyRecordFor (fun _ => zeroDemoDraws) (fun _ _ => zeroBehaviorNoise)
        (fun _ _ => zeroOutcomeNoise) (fun _ => 1) 0 0).outcomes.biological_age_acceleration
      = (monthlyRecordFor (fun _ => zeroDemoDraws) (fun _ _ => zeroBehaviorNoise)
          (fun _ _ => zeroOutcomeNoise) (fun _ => 1) 0 0).outcomes.biological_age_years
        - (monthlyRecordFor (fun _ => zeroDemoDraws) (fun _ _ => zeroBehaviorNoise)
            (fun _ _ => zeroOutcomeNoise) (fun _ => 1) 0 0).demographics.age_numeric :=
  C5_acceleration_eq_bioage_minus_baseline ⟨1, 1, false, "json"⟩ _ _ _ _ _ rfl _
    (List.mem_singleton_self _)

/-- A `Math.max(lo, Math.min(hi, x))` clamp lands in `[lo, hi]`. -/
lemma clamp_mem (lo hi x : ℚ) (h : lo ≤ hi) :
    lo ≤ max lo (min hi x) ∧ max lo (min hi x) ≤ hi :=
  ⟨le_max_left _ _, max_le h (min_le_left _ _)⟩

/-- A `Math.min(hi, Math.max(lo, x))` clamp lands in `[lo, hi]`. -/
lemma clamp_mem' (lo hi x : ℚ) (h : lo ≤ hi) :
    lo ≤ min hi (max lo x) ∧ min hi (max lo x) ≤ hi :=
  ⟨le_min h (le_max_left _ _), min_le_left _ _⟩

/-- Rounding preserves membership in an interval with integer endpoints. -/
lemma jsRound_mem_of_int_bounds (lo hi x : ℚ) (hl : lo ≤ x) (hh : x ≤ hi)
    (hlo : ∃ a : ℤ, (a : ℚ) = lo) (hhi : ∃ b : ℤ, (b : ℚ) = hi) :
    lo ≤ jsRound x ∧ jsRound x ≤ hi := by
  obtain ⟨a, rfl⟩ := hlo
  obtain ⟨b, rfl⟩ := hhi
  unfold jsRound
  constructor
  · exact_mod_cast Int.le_floor.mpr (by linarith)
  · have h1 : ⌊x + 1/2⌋ < b + 1 := Int.floor_lt.mpr (by push_cast; linarith)
    have h2 : ⌊x + 1/2⌋ ≤ b := by omega
    exact_mod_cast h2

/-- Motion days lie in `[0, 7]`. -/
lemma generateMotionBehavior_mem (df : DemoFactors) (sf : SeasonalFactors) (r : ℚ) :
    0 ≤ generateMotionBehavior df sf r ∧ generateMotionBehavior df sf r ≤ 7 := by
  unfold generateMotionBehavior
  exact jsRound_mem_of_int_bounds 0 7 _ (le_max_left _ _)
    (max_le (by norm_num) (min_le_left _ _)) ⟨0, by norm_num⟩ ⟨7, by norm_num⟩

/-- Sleep hours lie in `[4, 10]`. -/
lemma generateSleepBehavior_hours_mem (df : DemoFactors) (md hr qr : ℚ) :
    4 ≤ (generateSleepBehavior df md hr qr).hours ∧
    (generateSleepBehavior df md hr qr).hours ≤ 10 := by
  unfold generateSleepBehavior
  exact clamp_mem 4 10 _ (by norm_num)

/-- Sleep quality lies in `[1, 10]`. -/
lemma generateSleepBehavior_quality_mem (df : DemoFactors) (md hr qr : ℚ) :
    1 ≤ (generateSleepBehavior df md hr qr).quality ∧
    (generateSleepBehavior df md hr qr).quality ≤ 10 := by
  unfold generateSleepBehavior
  exact clamp_mem 1 10 _ (by norm_num)

/-- Hydration cups lie in `[2, 12]`. -/
lemma generateHydrationBehavior_mem (df : DemoFactors) (sq : SleepResult) (r : ℚ) :
    2 ≤ generateHydrationBehavior df sq r ∧ generateHydrationBehavior df sq r ≤ 12 := by
  unfold generateHydrationBehavior
  exact clamp_mem 2 12 _ (by norm_num)

/-- Diet score lies in `[1, 10]`. -/
lemma generateDietBehavior_mem (df : DemoFactors) (md r : ℚ) :
    1 ≤ generateDietBehavior df md r ∧ generateDietBehavior df md r ≤ 10 := by
  unfold generateDietBehavior
  exact clamp_mem 1 10 _ (by norm_num)

/-- Meditation minutes lie in `[0, 300]`. -/
lemma generateMeditationBehavior_mem (df : DemoFactors) (ds r : ℚ) :
    0 ≤ generateMeditationBehavior df ds r ∧ generateMeditationBehavior df ds r ≤ 300 := by
  unfold generateMeditationBehavior
  exact clamp_mem 0 300 _ (by norm_num)

/-- Alcohol drinks lie in `[0, 35]`. -/
lemma generateAlcoholBehavior_mem (df : DemoFactors) (ss : String) (r : ℚ) :
    0 ≤ generateAlcoholBehavior df ss r ∧ generateAlcoholBehavior df ss r ≤ 35 := by
  unfold generateAlcoholBehavior
  exact clamp_mem 0 35 _ (by norm_num)

/-- Added sugar lies in `[10, 150]`. -/
lemma generateSugarBehavior_mem (df : DemoFactors) (ds r : ℚ) :
    10 ≤ generateSugarBehavior df ds r ∧ generateSugarBehavior df ds r ≤ 150 := by
  unfold generateSugarBehavior
  exact clamp_mem 10 150 _ (by norm_num)

/-- Sodium lies in `[1, 8]`. -/
lemma generateSodiumBehavior_mem (df : DemoFactors) (ds r : ℚ) :
    1 ≤ generateSodiumBehavior df ds r ∧ generateSodiumBehavior df ds r ≤ 8 := by
  unfold generateSodiumBehavior
  exact clamp_mem 1 8 _ (by norm_num)

/-- Processed-food servings lie in `[0, 20]`. -/
lemma generateProcessedFoods_mem (df : DemoFactors) (ds r : ℚ) :
    0 ≤ generateProcessedFoods df ds r ∧ generateProcessedFoods df ds r ≤ 20 := by
  unfold generateProcessedFoods
  exact clamp_mem 0 20 _ (by norm_num)

/-- Social connections lie in `[0, 10]`. -/
lemma generateSocialConnections_mem (df : DemoFactors) (r : ℚ) :
    0 ≤ generateSocialConnections df r ∧ generateSocialConnections df r ≤ 10 := by
  unfold generateSocialConnections
  exact clamp_mem 0 10 _ (by norm_num)

/-- Nature minutes lie in `[0, 300]`. -/
lemma generateNatureConnection_mem (df : DemoFactors) (sf : SeasonalFactors) (r : ℚ) :
    0 ≤ generateNatureConnection df sf r ∧ generateNatureConnection df sf r ≤ 300 := by
  unfold generateNatureConnection
  exact clamp_mem 0 300 _ (by norm_num)

/-- Cultural hours lie in `[0, 20]`. -/
lemma generateCulturalActivities_mem (df : DemoFactors) (r : ℚ) :
    0 ≤ generateCulturalActivities df r ∧ generateCulturalActivities df r ≤ 20 := by
  unfold generateCulturalActivities
  exact clamp_mem 0 20 _ (by norm_num)

/-- Purpose score lies in `[1, 10]`. -/
lemma generatePurposeMeaning_mem (df : DemoFactors) (sc mm r : ℚ) :
    1 ≤ generatePurposeMeaning df sc mm r ∧ generatePurposeMeaning df sc mm r ≤ 10 := by
  unfold generatePurposeMeaning
  exact clamp_mem 1 10 _ (by norm_num)

/-- Biological age is floored at 18. -/
lemma calculateBiologicalAge_ge (a : ℚ) (b : TWABehaviors) (m : ℕ) :
    18 ≤ calculateBiologicalAge a b m := by
  unfold calculateBiologicalAge
  exact le_max_left _ _

/-- Mortality risk lies in `[0.1, 10]` for every age-exponential value. -/
lemma calculateMortalityRisk_mem (pow11 : ℚ → ℚ) (d : Demographics) (b : TWABehaviors)
    (age : ℚ) :
    0.1 ≤ calculateMortalityRisk pow11 d b age ∧ calculateMortalityRisk pow11 d b age ≤ 10 := by
  unfold calculateMortalityRisk
  exact clamp_mem 0.1 10 _ (by norm_num)

/-- CRP respects its floor of 0.1. -/
lemma generateBiomarkers_crp_ge (d : Demographics) (b : TWABehaviors) (age r : ℚ) :
    0.1 ≤ (generateBiomarkers d b age r).crp := by
  unfold generateBiomarkers
  exact le_max_left _ _

/-- IL-6 respects its floor of 0.1. -/
lemma generateBiomarkers_il6_ge (d : Demographics) (b : TWABehaviors) (age r : ℚ) :
    0.1 ≤ (generateBiomarkers d b age r).il6 := by
  unfold generateBiomarkers
  exact le_max_left _ _

/-- IGF-1 respects its floor of 50. -/
lemma generateBiomarkers_igf1_ge (d : Demographics) (b : TWABehaviors) (age r : ℚ) :
    50 ≤ (generateBiomarkers d b age r).igf1 := by
  unfold generateBiomarkers
  exact le_max_left _ _

/-- GDF-15 respects its floor of 100. -/
lemma generateBiomarkers_gdf15_ge (d : Demographics) (b : TWABehaviors) (age r : ℚ) :
    100 ≤ (generateBiomarkers d b age r).gdf15 := by
  unfold generateBiomarkers
  exact le_max_left _ _

/-- Cortisol respects its floor of 5. -/
lemma generateBiomarkers_cortisol_ge (d : Demographics) (b : TWABehaviors) (age r : ℚ) :
    5 ≤ (generateBiomarkers d b age r).cortisol := by
  unfold generateBiomarkers
  exact le_max_left _ _

/-- Cognitive composite score lies in `[50, 150]`. -/
lemma calculateCognitiveScore_mem (d : Demographics) (b : TWABehaviors) (age : ℚ) :
    50 ≤ calculateCognitiveScore d b age ∧ calculateCognitiveScore d b age ≤ 150 := by
  unfold calculateCognitiveScore
  exact clamp_mem 50 150 _ (by norm_num)

/-- Processing speed lies in `[50, 150]`. -/
lemma calculateProcessingSpeed_mem (d : Demographics) (b : TWABehaviors) (age : ℚ) :
    50 ≤ calculateProcessingSpeed d b age ∧ calculateProcessingSpeed d b age ≤ 150 := by
  unfold calculateProcessingSpeed
  exact clamp_mem 50 150 _ (by norm_num)

/-- Grip strength respects its floor of 10. -/
lemma generateFunctionalMeasures_grip_ge (d : Demographics) (b : TWABehaviors) (age : ℚ) :
    10 ≤ (generateFunctionalMeasures d b age).grip_strength := by
  unfold generateFunctionalMeasures
  exact le_max_left _ _

/-- Gait speed respects its floor of 0.5. -/
lemma generateFunctionalMeasures_gait_ge (d : Demographics) (b : TWABehaviors) (age : ℚ) :
    0.5 ≤ (generateFunctionalMeasures d b age).gait_speed := by
  unfold generateFunctionalMeasures
  exact le_max_left _ _

/-- Balance lies in `[1, 10]`. -/
lemma generateFunctionalMeasures_balance_mem (d : Demographics) (b : TWABehaviors) (age : ℚ) :
    1 ≤ (generateFunctionalMeasures d b age).balance ∧
    (generateFunctionalMeasures d b age).balance ≤ 10 := by
  unfold generateFunctionalMeasures
  exact clamp_mem 1 10 _ (by norm_num)

/-- Frailty lies in `[0, 1]`. -/
lemma generateFunctionalMeasures_frailty_mem (d : Demographics) (b : TWABehaviors) (age : ℚ) :
    0 ≤ (generateFunctionalMeasures d b age).frailty ∧
    (generateFunctionalMeasures d b age).frailty ≤ 1 := by
  unfold generateFunctionalMeasures
  exact clamp_mem 0 1 _ (by norm_num)

/-- The cognitive composite carried by the functional measures lies in `[50, 150]`. -/
lemma generateFunctionalMeasures_cognitive_mem (d : Demographics) (b : TWABehaviors) (age : ℚ) :
    50 ≤ (generateFunctionalMeasures d b age).cognitive ∧
    (generateFunctionalMeasures d b age).cognitive ≤ 150 := by
  unfold generateFunctionalMeasures
  dsimp only
  exact calculateCognitiveScore_mem _ _ _

/-- The processing speed carried by the functional measures lies in `[50, 150]`. -/
lemma generateFunctionalMeasures_processing_mem (d : Demographics) (b : TWABehaviors) (age : ℚ) :
    50 ≤ (generateFunctionalMeasures d b age).processing_speed ∧
    (generateFunctionalMeasures d b age).processing_speed ≤ 150 := by
  unfold generateFunctionalMeasures
  dsimp only
  exact calculateProcessingSpeed_mem _ _ _

/-- Life satisfaction lies in `[1, 10]`. -/
lemma generatePsychosocialOutcomes_life_mem (b : TWABehaviors) (bio : Biomarkers) :
    1 ≤ (generatePsychosocialOutcomes b bio).life_satisfaction ∧
    (generatePsychosocialOutcomes b bio).life_satisfaction ≤ 10 := by
  unfold generatePsychosocialOutcomes
  exact clamp_mem 1 10 _ (by norm_num)

/-- Stress lies in `[1, 10]`. -/
lemma generatePsychosocialOutcomes_stress_mem (b : TWABehaviors) (bio : Biomarkers) :
    1 ≤ (generatePsychosocialOutcomes b bio).stress ∧
    (generatePsychosocialOutcomes b bio).stress ≤ 10 := by
  unfold generatePsychosocialOutcomes
  exact clamp_mem 1 10 _ (by norm_num)

/-- Depression risk lies in `[1, 10]`. -/
lemma generatePsychosocialOutcomes_depression_mem (b : TWABehaviors) (bio : Biomarkers) :
    1 ≤ (generatePsychosocialOutcomes b bio).depression_risk ∧
    (generatePsychosocialOutcomes b bio).depression_risk ≤ 10 := by
  unfold generatePsychosocialOutcomes
  exact clamp_mem 1 10 _ (by norm_num)

/-- Social support lies in `[1, 10]`. -/
lemma generatePsychosocialOutcomes_support_mem (b : TWABehaviors) (bio : Biomarkers) :
    1 ≤ (generatePsychosocialOutcomes b bio).social_support ∧
    (generatePsychosocialOutcomes b bio).social_support ≤ 10 := by
  unfold generatePsychosocialOutcomes
  exact clamp_mem 1 10 _ (by norm_num)

/-- Estimated lifespan lies in `[50, 100]`. -/
lemma calculateEstimatedLifespan_mem (d : Demographics) (mr r : ℚ) :
    50 ≤ calculateEstimatedLifespan d mr r ∧ calculateEstimatedLifespan d mr r ≤ 100 := by
  unfold calculateEstimatedLifespan
  exact clamp_mem 50 100 _ (by norm_num)

/-- C1: every numeric field of the generated behavior vector and of the
outcome vector computed from it lies within its documented domain — for every
profile, month, season, noise draw and age-exponential function: motion days
in [0,7], sleep hours in [4,10], sleep quality in [1,10], hydration in [2,12],
diet score in [1,10], meditation minutes in [0,300], alcohol in [0,35], sugar
in [10,150], sodium in [1,8], processed food in [0,20], social ties in [0,10],
nature minutes in [0,300], cultural hours in [0,20], purpose in [1,10];
biological age at least 18, mortality risk in [0.1,10], the five biomarkers at
or above their floors (0.1, 0.1, 50, 100, 5), grip strength at least 10, gait
speed at least 0.5, balance in [1,10], frailty in [0,1], the two cognitive
scores in [50,150], the four psychosocial scores in [1,10], and estimated
lifespan in [50,100]. -/
theorem C1_generated_fields_within_domains (p : Demographics) (month : ℕ) (season : Season)
    (noise : BehaviorNoise) (pow11 : ℚ → ℚ) (baselineAge : ℚ) (monthsElapsed : ℕ)
    (onoise : OutcomeNoise) :
    let b := generateMonthlyTWABehaviors p month season noise
    let o := generateAgingWellnessOutcomes pow11 p b baselineAge monthsElapsed onoise
    (0 ≤ b.motion_days_week ∧ b.motion_days_week ≤ 7) ∧
    (4 ≤ b.sleep_hours ∧ b.sleep_hours ≤ 10) ∧
    (1 ≤ b.sleep_quality_score ∧ b.sleep_quality_score ≤ 10) ∧
    (2 ≤ b.hydration_cups_day ∧ b.hydration_cups_day ≤ 12) ∧
    (1 ≤ b.diet_mediterranean_score ∧ b.diet_mediterranean_score ≤ 10) ∧
    (0 ≤ b.meditation_minutes_week ∧ b.meditation_minutes_week ≤ 300) ∧
    (0 ≤ b.alcohol_drinks_week ∧ b.alcohol_drinks_week ≤ 35) ∧
    (10 ≤ b.added_sugar_grams_day ∧ b.added_sugar_grams_day ≤ 150) ∧
    (1 ≤ b.sodium_grams_day ∧ b.sodium_grams_day ≤ 8) ∧
    (0 ≤ b.processed_food_servings_week ∧ b.processed_food_servings_week ≤ 20) ∧
    (0 ≤ b.social_connections_count ∧ b.social_connections_count ≤ 10) ∧
    (0 ≤ b.nature_minutes_week ∧ b.nature_minutes_week ≤ 300) ∧
    (0 ≤ b.cultural_hours_week ∧ b.cultural_hours_week ≤ 20) ∧
    (1 ≤ b.purpose_meaning_score ∧ b.purpose_meaning_score ≤ 10) ∧
    18 ≤ o.biological_age_years ∧
    (0.1 ≤ o.mortality_risk_score ∧ o.mortality_risk_score ≤ 10) ∧
    0.1 ≤ o.crp_mg_l ∧
    0.1 ≤ o.il6_pg_ml ∧
    50 ≤ o.igf1_ng_ml ∧
    100 ≤ o.gdf15_pg_ml ∧
    5 ≤ o.cortisol_ug_dl ∧
    10 ≤ o.grip_strength_kg ∧
    0.5 ≤ o.gait_speed_ms ∧
    (1 ≤ o.balance_score ∧ o.balance_score ≤ 10) ∧
    (0 ≤ o.frailty_index ∧ o.frailty_index ≤ 1) ∧
    (50 ≤ o.cognitive_composite_score ∧ o.cognitive_composite_score ≤ 150) ∧
    (50 ≤ o.processing_speed_score ∧ o.processing_speed_score ≤ 150) ∧
    (1 ≤ o.life_satisfaction_score ∧ o.life_satisfaction_score ≤ 10) ∧
    (1 ≤ o.stress_level_score ∧ o.stress_level_score ≤ 10) ∧
    (1 ≤ o.depression_risk_score ∧ o.depression_risk_score ≤ 10) ∧
    (1 ≤ o.social_support_score ∧ o.social_support_score ≤ 10) ∧
    (50 ≤ o.estimated_lifespan_years ∧ o.estimated_lifespan_years ≤ 100) := by
  intro b o
  unfold o b
  unfold generateMonthlyTWABehaviors generateAgingWellnessOutcomes
  dsimp only
  refine ⟨generateMotionBehavior_mem _ _ _,
    generateSleepBehavior_hours_mem _ _ _ _,
    generateSleepBehavior_quality_mem _ _ _ _,
    generateHydrationBehavior_mem _ _ _,
    generateDietBehavior_mem _ _ _,
    generateMeditationBehavior_mem _ _ _,
    generateAlcoholBehavior_mem _ _ _,
    generateSugarBehavior_mem _ _ _,
    generateSodiumBehavior_mem _ _ _,
    generateProcessedFoods_mem _ _ _,
    generateSocialConnections_mem _ _,
    generateNatureConnection_mem _ _ _,
    generateCulturalActivities_mem _ _,
    generatePurposeMeaning_mem _ _ _ _,
    calculateBiologicalAge_ge _ _ _,
    calculateMortalityRisk_mem _ _ _ _,
    generateBiomarkers_crp_ge _ _ _ _,
    generateBiomarkers_il6_ge _ _ _ _,
    generateBiomarkers_igf1_ge _ _ _ _,
    generateBiomarkers_gdf15_ge _ _ _ _,
    generateBiomarkers_cortisol_ge _ _ _ _,
    generateFunctionalMeasures_grip_ge _ _ _,
    generateFunctionalMeasures_gait_ge _ _ _,
    generateFunctionalMeasures_balance_mem _ _ _,
    generateFunctionalMeasures_frailty_mem _ _ _,
    generateFunctionalMeasures_cognitive_mem _ _ _,
    generateFunctionalMeasures_processing_mem _ _ _,
    generatePsychosocialOutcomes_life_mem _ _,
    generatePsychosocialOutcomes_stress_mem _ _,
    generatePsychosocialOutcomes_depression_mem _ _,
    generatePsychosocialOutcomes_support_mem _ _,
    calculateEstimatedLifespan_mem _ _ _⟩

/-! Decimal-digit machinery: the subject identifier embeds `i.toString()`
(`Nat.repr`), whose injectivity is needed for the distinct-identifier count. -/

/-- Numeric value of a decimal digit character. -/
def digitVal (c : Char) : ℕ := c.toNat - 48

/-- The decimal digit string of a natural number, most significant first. -/
def digitsOf (n : ℕ) : List Char :=
  if h : n < 10 then [Nat.digitChar n]
  else
    have : n / 10 < n := Nat.div_lt_self (by omega) (by norm_num)
    digitsOf (n / 10) ++ [Nat.digitChar (n % 10)]

/-- Parse a decimal digit string back to a natural number. -/
def parseDigits (l : List Char) : ℕ := l.foldl (fun a c => 10 * a + digitVal c) 0

lemma digitVal_digitChar (d : ℕ) (h : d < 10) : digitVal (Nat.digitChar d) = d := by
  interval_cases d <;> decide

lemma parseDigits_append_singleton (l : List Char) (c : Char) :
    parseDigits (l ++ [c]) = 10 * parseDigits l + digitVal c := by
  unfold parseDigits
  rw [List.foldl_append]
  rfl

lemma parseDigits_digitsOf (n : ℕ) : parseDigits (digitsOf n) = n := by
  induction n using Nat.strong_induction_on with
  | _ n ih =>
    unfold digitsOf
    split
    · rename_i h
      show parseDigits [Nat.digitChar n] = n
      unfold parseDigits
      simp [digitVal_digitChar n h]
    · rename_i h
      rw [parseDigits_append_singleton,
        ih (n / 10) (Nat.div_lt_self (by omega) (by norm_num))]
      have h10 : n % 10 < 10 := Nat.mod_lt _ (by norm_num)
      rw [digitVal_digitChar _ h10]
      omega

lemma digitsOf_injective : Function.Injective digitsOf := by
  intro a b h
  have ha := parseDigits_digitsOf a
  rw [h, parseDigits_digitsOf b] at ha
  exact ha.symm

lemma digitsOf_ne_nil (n : ℕ) : digitsOf n ≠ [] := by
  unfold digitsOf
  split
  · simp
  · simp

lemma digitsOf_length_pos (n : ℕ) : 1 ≤ (digitsOf n).length :=
  List.length_pos.mpr (digitsOf_ne_nil n)

lemma digitsOf_zero : digitsOf 0 = ['0'] := by
  rw [digitsOf]
  norm_num
  decide

lemma digitsOf_head_ne_zero : ∀ n : ℕ, 0 < n → ∀ c t, digitsOf n = c :: t → c ≠ '0' := by
  intro n
  induction n using Nat.strong_induction_on with
  | _ n ih =>
    intro hn c t h
    rw [digitsOf] at h
    split at h
    · rename_i hlt
      injection h with h1 h2
      subst h1
      interval_cases n <;> decide
    · rename_i hlt
      obtain ⟨c', t', hct⟩ := List.exists_cons_of_ne_nil (digitsOf_ne_nil (n / 10))
      rw [hct, List.cons_append] at h
      injection h with h1 h2
      subst h1
      exact ih (n / 10) (Nat.div_lt_self (by omega) (by norm_num))
        (Nat.div_pos (by omega) (by norm_num)) c' t' hct

lemma toDigitsCore_eq : ∀ n : ℕ, ∀ fuel : ℕ, ∀ ds : List Char, n < fuel →
    Nat.toDigitsCore 10 fuel n ds = digitsOf n ++ ds := by
  intro n
  induction n using Nat.strong_induction_on with
  | _ n ih =>
    intro fuel ds h
    cases fuel with
    | zero => omega
    | succ f =>
      rw [Nat.toDigitsCore]
      by_cases h0 : n / 10 = 0
      · have hlt : n < 10 := by omega
        simp only [h0, if_pos]
        rw [digitsOf]
        rw [dif_pos hlt, Nat.mod_eq_of_lt hlt]
        rfl
      · have h10 : 10 ≤ n := by omega
        simp only [h0, if_neg, if_false]
        rw [ih (n / 10) (Nat.div_lt_self (by omega) (by norm_num)) f
          (Nat.digitChar (n % 10) :: ds) (by omega)]
        conv_rhs => rw [digitsOf, dif_neg (by omega : ¬ n < 10)]
        simp

lemma repr_data_eq_digitsOf (n : ℕ) : (Nat.repr n).data = digitsOf n := by
  show (Nat.toDigits 10 n).asString.data = digitsOf n
  unfold Nat.toDigits
  rw [toDigitsCore_eq n (n + 1) [] (by omega)]
  simp [List.asString]

lemma pad_digits_no_shorter (i j : ℕ)
    (h : List.replicate (6 - (digitsOf i).length) '0' ++ digitsOf i
       = List.replicate (6 - (digitsOf j).length) '0' ++ digitsOf j)
    (hlt : (digitsOf i).length < (digitsOf j).length) : False := by
  set di := digitsOf i with hdi
  set dj := digitsOf j with hdj
  set ai := 6 - di.length with hai
  set aj := 6 - dj.length with haj
  have hlen : ai + di.length = aj + dj.length := by
    have := congrArg List.length h
    simpa [List.length_append, List.length_replicate] using this
  have haij : aj < ai := by omega
  have hdrop := congrArg (List.drop aj) h
  rw [List.drop_append_of_le_length (by simp [List.length_replicate]; omega),
    List.drop_append_of_le_length (by simp [List.length_replicate]),
    List.drop_replicate, List.drop_replicate] at hdrop
  simp only [Nat.sub_self, List.replicate_zero, List.nil_append] at hdrop
  obtain ⟨k, hk⟩ : ∃ k, ai - aj = k + 1 := ⟨ai - aj - 1, by omega⟩
  rw [hk, List.replicate_succ, List.cons_append] at hdrop
  have hjpos : 0 < j := by
    rcases Nat.eq_zero_or_pos j with h0 | h0
    · exfalso
      have hval : dj = ['0'] := by rw [hdj, h0, digitsOf_zero]
      have hl : dj.length = 1 := by rw [hval]; rfl
      have hip : 1 ≤ di.length := digitsOf_length_pos i
      omega
    · exact h0
  exact digitsOf_head_ne_zero j hjpos '0' _ hdrop.symm rfl

lemma pad_digits_inj (i j : ℕ)
    (h : List.replicate (6 - (digitsOf i).length) '0' ++ digitsOf i
       = List.replicate (6 - (digitsOf j).length) '0' ++ digitsOf j) : i = j := by
  rcases lt_trichotomy (digitsOf i).length (digitsOf j).length with hlt | heq | hgt
  · exact absurd (pad_digits_no_shorter i j h hlt) not_false
  · rw [heq] at h
    exact digitsOf_injective (List.append_cancel_left h)
  · exact absurd (pad_digits_no_shorter j i h.symm hgt) not_false

/-- Distinct subject numbers receive distinct identifiers. -/
lemma subjectId_injective : Function.Injective subjectId := by
  intro i j h
  unfold subjectId padStart at h
  have hd := congrArg String.data h
  rw [String.data_append, String.data_append] at hd
  have hd2 := List.append_cancel_left hd
  show i = j
  have hi := repr_data_eq_digitsOf i
  have hj := repr_data_eq_digitsOf j
  simp only [hi, hj] at hd2
  exact pad_digits_inj i j hd2

/-- C4: for every valid configuration and every random stream, the dataset has
exactly `subjectCount * months` records, the number of distinct subject
identifiers is `subjectCount`, the `(subject, month)` projection is exactly
the subject-major, month-ascending enumeration of `0..subjectCount-1` times
`0..months-1` (so records are grouped by subject with ascending months, each
subject carrying exactly the months `0..months-1`), and every month-0 record
has season Winter. -/
theorem C4_dataset_shape (config : DatasetConfig) (dr : ℕ → DemoDraws)
    (br : ℕ → ℕ → BehaviorNoise) (onr : ℕ → ℕ → OutcomeNoise) (pow11 : ℚ → ℚ)
    (ds : List MonthlyRecord)
    (hds : generateCompleteDataset config dr br onr pow11 = Except.ok ds)
    (_hn : 1 ≤ config.n_subjects) (hm : 1 ≤ config.months) :
    ds.length = config.n_subjects * config.months ∧
    (ds.map (fun r => r.subject_id)).dedup.length = config.n_subjects ∧
    ds.map (fun r => (r.subject_id, r.month))
      = (List.range config.n_subjects).flatMap (fun i =>
          (List.range config.months).map fun m => (subjectId i, m)) ∧
    ∀ r ∈ ds, r.month = 0 → r.season = Season.Winter := by
  have hds' : ds = genRecords config dr br onr pow11 := by
    cases hds
    rfl
  subst hds'
  refine ⟨?_, ?_, ?_, ?_⟩
  · simp [genRecords, List.length_flatMap, Function.comp_def, List.map_const',
      List.sum_replicate, smul_eq_mul]
  · have hids : (genRecords config dr br onr pow11).map (fun r => r.subject_id)
        = (List.range config.n_subjects).flatMap (fun i =>
            (List.range config.months).map fun _ => subjectId i) := by
      simp only [genRecords, List.map_flatMap, List.map_map]
      rfl
    rw [hids]
    set l := (List.range config.n_subjects).flatMap (fun i =>
      (List.range config.months).map fun _ => subjectId i) with hl
    have hmem : ∀ x, x ∈ l ↔ x ∈ (List.range config.n_subjects).map subjectId := by
      intro x
      simp only [hl, List.mem_flatMap, List.mem_map, List.mem_range]
      constructor
      · rintro ⟨i, hi, m, hmm, rfl⟩
        exact ⟨i, hi, rfl⟩
      · rintro ⟨i, hi, rfl⟩
        exact ⟨i, hi, 0, by omega, rfl⟩
    have hfin : l.toFinset = ((List.range config.n_subjects).map subjectId).toFinset := by
      ext x
      simp only [List.mem_toFinset]
      exact hmem x
    have hnodup : ((List.range config.n_subjects).map subjectId).Nodup :=
      (List.nodup_range config.n_subjects).map subjectId_injective
    calc l.dedup.length = l.toFinset.card := (List.card_toFinset _).symm
      _ = ((List.range config.n_subjects).map subjectId).toFinset.card := by rw [hfin]
      _ = ((List.range config.n_subjects).map subjectId).dedup.length :=
          List.card_toFinset _
      _ = ((List.range config.n_subjects).map subjectId).length := by
          rw [List.dedup_eq_self.mpr hnodup]
      _ = config.n_subjects := by simp
  · simp only [genRecords, List.map_flatMap, List.map_map]
    rfl
  · rintro r hr h0
    simp only [genRecords, List.mem_flatMap, List.mem_map, List.mem_range] at hr
    obtain ⟨i, hi, m, hmm, rfl⟩ := hr
    have hm0 : m = 0 := h0
    subst hm0
    rfl

/-- Witness for `C4_dataset_shape` at a concrete 2-subject, 2-month run. -/
theorem C4_dataset_shape_witness :
    (genRecords ⟨2, 2, false, "json"⟩ (fun _ => zeroDemoDraws) (fun _ _ => zeroBehaviorNoise)
      (fun _ _ => zeroOutcomeNoise) (fun _ => 1)).length = 2 * 2 :=
  (C4_dataset_shape ⟨2, 2, false, "json"⟩ (fun _ => zeroDemoDraws)
    (fun _ _ => zeroBehaviorNoise) (fun _ _ => zeroOutcomeNoise) (fun _ => 1) _ rfl
    (by norm_num) (by norm_num)).1

/-- C8: the six guideline-compliance flags and the two composite scores of
every generated record are pure functions of the record's stored
`BehaviorVector`, `OutcomeVector` and profile: recomputing each of them from
the stored sub-vectors reproduces the stored values exactly, with no
dependence on any random draw. -/
theorem C8_flags_and_composites_recomputable (config : DatasetConfig) (dr : ℕ → DemoDraws)
    (br : ℕ → ℕ → BehaviorNoise) (onr : ℕ → ℕ → OutcomeNoise) (pow11 : ℚ → ℚ)
    (ds : List MonthlyRecord)
    (hds : generateCompleteDataset config dr br onr pow11 = Except.ok ds)
    (r : MonthlyRecord) (hr : r ∈ ds) :
    r.meets_exercise_guidelines = decide (3 ≤ r.behaviors.motion_days_week) ∧
    r.meets_sleep_guidelines
      = (decide (7 ≤ r.behaviors.sleep_hours) &&
         decide (6 ≤ r.behaviors.sleep_quality_score)) ∧
    r.high_diet_quality = decide (7 ≤ r.behaviors.diet_mediterranean_score) ∧
    r.regular_meditation = decide (150 ≤ r.behaviors.meditation_minutes_week) ∧
    r.strong_social_support = decide (4 ≤ r.behaviors.social_connections_count) ∧
    r.high_purpose = decide (8 ≤ r.behaviors.purpose_meaning_score) ∧
    r.healthy_aging_profile = calculateHealthyAgingProfile r.behaviors r.outcomes ∧
    r.blue_zone_similarity_score = calculateBlueZoneSimilarity r.behaviors r.demographics := by
  have hds' : ds = genRecords config dr br onr pow11 := by
    cases hds
    rfl
  subst hds'
  simp only [genRecords, List.mem_flatMap, List.mem_map, List.mem_range] at hr
  obtain ⟨i, hi, m, hmm, rfl⟩ := hr
  exact ⟨rfl, rfl, rfl, rfl, rfl, rfl, rfl, rfl⟩

/-- Witness for `C8_flags_and_composites_recomputable` on the single record of
a concrete one-subject, one-month dataset. -/
theorem C8_flags_and_composites_recomputable_witness :
    (monthlyRecordFor (fun _ => zeroDemoDraws) (fun _ _ => zeroBehaviorNoise)
        (fun _ _ => zeroOutcomeNoise) (fun _ => 1) 0 0).healthy_aging_profile
      = calculateHealthyAgingProfile
          (monthlyRecordFor (fun _ => zeroDemoDraws) (fun _ _ => zeroBehaviorNoise)
            (fun _ _ => zeroOutcomeNoise) (fun _ => 1) 0 0).behaviors
          (monthlyRecordFor (fun _ => zeroDemoDraws) (fun _ _ => zeroBehaviorNoise)
            (fun _ _ => zeroOutcomeNoise) (fun _ => 1) 0 0).outcomes :=
  (C8_flags_and_composites_recomputable ⟨1, 1, false, "json"⟩ (fun _ => zeroDemoDraws)
    (fun _ _ => zeroBehaviorNoise) (fun _ _ => zeroOutcomeNoise) (fun _ => 1) _ rfl _
    (List.mem_singleton_self _)).2.2.2.2.2.2.1

/-- The specification's wording of the mortality-risk formula: 1.0 multiplied
by each threshold-triggered hazard factor that fires, then by the
age-exponential term, then clamped to `[0.1, 10.0]`.  Stated as a separate
definition to be compared with the source's `calculateMortalityRisk`. -/
def mortalityRiskSpecFormula (pow11 : ℚ → ℚ) (behaviors : TWABehaviors) (bioAge : ℚ) : ℚ :=
  let e := loadResearchEffectSizes.mortalityRiskEffects
  let factors :=
    (if 8 ≤ behaviors.purpose_meaning_score then e.purpose_high else 1) *
    (if 3 ≤ behaviors.motion_days_week then e.exercise_regular else 1) *
    (if 7 ≤ behaviors.diet_mediterranean_score then e.diet_quality_high else 1) *
    (if 150 ≤ behaviors.meditation_minutes_week then e.meditation_practice else 1) *
    (if behaviors.smoking_status = "Current" then e.smoking_current else 1) *
    (if behaviors.social_connections_count < 2 then e.social_isolated else 1)
  max 0.1 (min 10 (1.0 * factors * pow11 ((bioAge - 30) / 10)))

/-- C6: for every profile, behavior vector, biological age and age-exponential
function, the source's mortality risk equals the spec's formula — 1.0 times
each fired threshold factor, times `1.1^((bioAge-30)/10)` (abstracted as
`pow11`), clamped to `[0.1, 10.0]` — and each protective factor is below 1
while the smoking and social-isolation factors are above 1. -/
theorem C6_mortality_risk_formula (pow11 : ℚ → ℚ) (d : Demographics) (b : TWABehaviors)
    (bioAge : ℚ) :
    calculateMortalityRisk pow11 d b bioAge = mortalityRiskSpecFormula pow11 b bioAge ∧
    (loadResearchEffectSizes.mortalityRiskEffects.purpose_high < 1 ∧
     loadResearchEffectSizes.mortalityRiskEffects.exercise_regular < 1 ∧
     loadResearchEffectSizes.mortalityRiskEffects.diet_quality_high < 1 ∧
     loadResearchEffectSizes.mortalityRiskEffects.meditation_practice < 1) ∧
    (1 < loadResearchEffectSizes.mortalityRiskEffects.smoking_current ∧
     1 < loadResearchEffectSizes.mortalityRiskEffects.social_isolated) := by
  refine ⟨?_, ?_, ?_⟩
  · unfold calculateMortalityRisk mortalityRiskSpecFormula
    dsimp only
    split_ifs <;> (congr 1; congr 1; ring)
  · simp only [loadResearchEffectSizes]
    norm_num
  · simp only [loadResearchEffectSizes]
    norm_num

/-- A JS division is finite exactly when its denominator is non-zero. -/
lemma jsDiv_isSome (a b : ℚ) : (jsDiv a b).isSome ↔ b ≠ 0 := by
  unfold jsDiv
  split <;> simp_all

/-- Core Option-propagation fact for `calculateSeasonalVariations`: the
standard-deviation pipeline over four group means is finite exactly when all
four means are finite. -/
lemma seasonal_core (m1 m2 m3 m4 : Option ℚ) (k : ℚ) (hk : 0 ≤ k) :
    (jsSqrt (Option.map (fun s => s / k) (jsSum
      [Option.map (fun d => d ^ 2)
        (jsSub m1 (Option.map (fun s => s / k) (jsSum [m1, m2, m3, m4]))),
       Option.map (fun d => d ^ 2)
        (jsSub m2 (Option.map (fun s => s / k) (jsSum [m1, m2, m3, m4]))),
       Option.map (fun d => d ^ 2)
        (jsSub m3 (Option.map (fun s => s / k) (jsSum [m1, m2, m3, m4]))),
       Option.map (fun d => d ^ 2)
        (jsSub m4 (Option.map (fun s => s / k) (jsSum [m1, m2, m3, m4])))]))).isSome ↔
      (m1.isSome ∧ m2.isSome ∧ m3.isSome ∧ m4.isSome) := by
  cases m1 <;> cases m2 <;> cases m3 <;> cases m4 <;>
    simp [jsSqrt, jsSum, jsAdd, jsSub]
  rename_i a b c d
  exact div_nonneg (by positivity) hk

/-- C10: there is a non-empty record collection accepted by `validateDataset`
(a generated one-month dataset, all Winter) on which a seasonal group is empty
and the seasonal-variation statistic is NaN (`none`); in general the statistic
is a well-defined (finite) number exactly when every one of the four seasons
occurs in the dataset. -/
theorem C10_seasonal_variations_partiality :
    (∃ ds : List MonthlyRecord, ds ≠ [] ∧ (∃ rep, validateDataset ds = Except.ok rep) ∧
      ds.filter (fun r => decide (r.season = Season.Spring)) = [] ∧
      calculateSeasonalVariations ds = none) ∧
    ∀ ds : List MonthlyRecord, (calculateSeasonalVariations ds).isSome ↔
      ((∃ r ∈ ds, r.season = Season.Spring) ∧ (∃ r ∈ ds, r.season = Season.Summer) ∧
       (∃ r ∈ ds, r.season = Season.Fall) ∧ (∃ r ∈ ds, r.season = Season.Winter)) := by
  constructor
  · refine ⟨genRecords ⟨1, 1, false, "json"⟩ (fun _ => zeroDemoDraws)
      (fun _ _ => zeroBehaviorNoise) (fun _ _ => zeroOutcomeNoise) (fun _ => 1),
      ?_, ⟨validationResults _, rfl⟩, rfl, rfl⟩
    exact List.cons_ne_nil _ _
  · intro ds
    unfold calculateSeasonalVariations
    dsimp only
    simp only [List.map_cons, List.map_nil, List.length_cons, List.length_nil]
    rw [seasonal_core _ _ _ _ _ (by positivity)]
    simp only [jsDiv_isSome, ne_eq, Nat.cast_eq_zero, List.length_eq_zero,
      List.filter_eq_nil_iff, decide_eq_true_eq, not_forall]
    constructor
    · rintro ⟨⟨r1, h1, hs1⟩, ⟨r2, h2, hs2⟩, ⟨r3, h3, hs3⟩, ⟨r4, h4, hs4⟩⟩
      exact ⟨⟨r1, h1, not_not.mp hs1⟩, ⟨r2, h2, not_not.mp hs2⟩,
        ⟨r3, h3, not_not.mp hs3⟩, ⟨r4, h4, not_not.mp hs4⟩⟩
    · rintro ⟨⟨r1, h1, hs1⟩, ⟨r2, h2, hs2⟩, ⟨r3, h3, hs3⟩, ⟨r4, h4, hs4⟩⟩
      exact ⟨⟨r1, h1, not_not.mpr hs1⟩, ⟨r2, h2, not_not.mpr hs2⟩,
        ⟨r3, h3, not_not.mpr hs3⟩, ⟨r4, h4, not_not.mpr hs4⟩⟩

/-! Cauchy-Schwarz machinery for the Pearson-correlation bound. -/

lemma map_mul_self_sum_nonneg {α : Type} (l : List α) (f : α → ℚ) :
    0 ≤ (l.map fun a => f a * f a).sum := by
  induction l with
  | nil => simp
  | cons a l ih =>
    simp only [List.map_cons, List.sum_cons]
    nlinarith [mul_self_nonneg (f a)]

lemma list_inner_sq_le (l : List (ℚ × ℚ)) :
    ((l.map fun p => p.1 * p.2).sum) ^ 2
      ≤ ((l.map fun p => p.1 * p.1).sum) * ((l.map fun p => p.2 * p.2).sum) := by
  induction l with
  | nil => simp
  | cons p l ih =>
    simp only [List.map_cons, List.sum_cons]
    set S := (l.map fun p => p.1 * p.2).sum with hS
    set A := (l.map fun p => p.1 * p.1).sum with hA
    set B := (l.map fun p => p.2 * p.2).sum with hB
    have hA0 : 0 ≤ A := map_mul_self_sum_nonneg l (fun p => p.1)
    have hB0 : 0 ≤ B := map_mul_self_sum_nonneg l (fun p => p.2)
    rcases eq_or_lt_of_le hB0 with hB1 | hB1
    · have hS0 : S = 0 := by nlinarith [ih]
      rw [hS0, ← hB1]
      nlinarith [mul_nonneg hA0 (mul_self_nonneg p.2)]
    · nlinarith [ih, sq_nonneg (p.1 * B - p.2 * S),
        mul_nonneg (add_nonneg (mul_self_nonneg p.2) hB0) (sub_nonneg.mpr ih)]

lemma expand_ab (l : List (ℚ × ℚ)) (c d e f : ℚ) :
    (l.map fun p => (c * p.1 - d) * (e * p.2 - f)).sum
      = c * e * (l.map fun p => p.1 * p.2).sum - c * f * (l.map fun p => p.1).sum
        - d * e * (l.map fun p => p.2).sum + d * f * (l.length : ℚ) := by
  induction l with
  | nil => simp
  | cons p l ih =>
    simp only [List.map_cons, List.sum_cons, List.length_cons]
    rw [ih]
    push_cast
    ring

lemma expand_aa (l : List (ℚ × ℚ)) (c d : ℚ) :
    (l.map fun p => (c * p.1 - d) * (c * p.1 - d)).sum
      = c * c * (l.map fun p => p.1 * p.1).sum - 2 * c * d * (l.map fun p => p.1).sum
        + d * d * (l.length : ℚ) := by
  induction l with
  | nil => simp
  | cons p l ih =>
    simp only [List.map_cons, List.sum_cons, List.length_cons]
    rw [ih]
    push_cast
    ring

lemma expand_bb (l : List (ℚ × ℚ)) (c d : ℚ) :
    (l.map fun p => (c * p.2 - d) * (c * p.2 - d)).sum
      = c * c * (l.map fun p => p.2 * p.2).sum - 2 * c * d * (l.map fun p => p.2).sum
        + d * d * (l.length : ℚ) := by
  induction l with
  | nil => simp
  | cons p l ih =>
    simp only [List.map_cons, List.sum_cons, List.length_cons]
    rw [ih]
    push_cast
    ring

lemma centered_cs (l : List (ℚ × ℚ)) :
    ((l.length : ℚ) * (l.map fun p => p.1 * p.2).sum
        - (l.map fun p => p.1).sum * (l.map fun p => p.2).sum) ^ 2
      ≤ ((l.length : ℚ) * (l.map fun p => p.1 * p.1).sum
          - (l.map fun p => p.1).sum * (l.map fun p => p.1).sum)
        * ((l.length : ℚ) * (l.map fun p => p.2 * p.2).sum
          - (l.map fun p => p.2).sum * (l.map fun p => p.2).sum) := by
  rcases eq_or_ne l [] with rfl | hne
  · simp
  · set n : ℚ := (l.length : ℚ) with hn
    set Sa := (l.map fun p => p.1).sum with hSa
    set Sb := (l.map fun p => p.2).sum with hSb
    set Sab := (l.map fun p => p.1 * p.2).sum with hSab
    set Saa := (l.map fun p => p.1 * p.1).sum with hSaa
    set Sbb := (l.map fun p => p.2 * p.2).sum with hSbb
    have hnpos : 0 < n := by
      rw [hn]
      exact_mod_cast List.length_pos.mpr hne
    have key := list_inner_sq_le (l.map fun p => (n * p.1 - Sa, n * p.2 - Sb))
    simp only [List.map_map, Function.comp_def] at key
    rw [expand_ab, expand_aa, expand_bb] at key
    rw [← hSab, ← hSa, ← hSb, ← hSaa, ← hSbb, ← hn] at key
    have key2 : n ^ 2 * ((n * Sab - Sa * Sb) ^ 2)
        ≤ n ^ 2 * ((n * Saa - Sa * Sa) * (n * Sbb - Sb * Sb)) := by
      nlinarith [key]
    exact le_of_mul_le_mul_left key2 (by positivity)

lemma zip_length_eq (x y : List ℚ) (h : x.length = y.length) :
    (x.zip y).length = x.length := by
  rw [List.length_zip, h, min_self]

lemma zip_sum_fst (x y : List ℚ) (h : x.length = y.length) :
    ((x.zip y).map fun p => p.1).sum = x.sum := by
  induction x generalizing y with
  | nil => simp
  | cons a x ih =>
    cases y with
    | nil => simp at h
    | cons b y =>
      simp only [List.zip_cons_cons, List.map_cons, List.sum_cons]
      rw [ih y (by simpa using h)]

lemma zip_sum_snd (x y : List ℚ) (h : x.length = y.length) :
    ((x.zip y).map fun p => p.2).sum = y.sum := by
  induction x generalizing y with
  | nil =>
    cases y with
    | nil => simp
    | cons b y => simp at h
  | cons a x ih =>
    cases y with
    | nil => simp at h
    | cons b y =>
      simp only [List.zip_cons_cons, List.map_cons, List.sum_cons]
      rw [ih y (by simpa using h)]

lemma zip_sum_fst_sq (x y : List ℚ) (h : x.length = y.length) :
    ((x.zip y).map fun p => p.1 * p.1).sum = (x.map fun a => a * a).sum := by
  induction x generalizing y with
  | nil => simp
  | cons a x ih =>
    cases y with
    | nil => simp at h
    | cons b y =>
      simp only [List.zip_cons_cons, List.map_cons, List.sum_cons]
      rw [ih y (by simpa using h)]

lemma zip_sum_snd_sq (x y : List ℚ) (h : x.length = y.length) :
    ((x.zip y).map fun p => p.2 * p.2).sum = (y.map fun a => a * a).sum := by
  induction x generalizing y with
  | nil =>
    cases y with
    | nil => simp
    | cons b y => simp at h
  | cons a x ih =>
    cases y with
    | nil => simp at h
    | cons b y =>
      simp only [List.zip_cons_cons, List.map_cons, List.sum_cons]
      rw [ih y (by simpa using h)]

lemma corr_num_sq_le (x y : List ℚ) (h : x.length = y.length) :
    ((x.length : ℚ) * ((x.zip y).map fun p => p.1 * p.2).sum - x.sum * y.sum) ^ 2
      ≤ ((x.length : ℚ) * (x.map fun a => a * a).sum - x.sum * x.sum)
        * ((x.length : ℚ) * (y.map fun a => a * a).sum - y.sum * y.sum) := by
  have h0 := centered_cs (x.zip y)
  rw [zip_length_eq x y h, zip_sum_fst x y h, zip_sum_snd x y h, zip_sum_fst_sq x y h,
    zip_sum_snd_sq x y h] at h0
  exact h0

lemma Dx_nonneg (x : List ℚ) :
    0 ≤ (x.length : ℚ) * (x.map fun a => a * a).sum - x.sum * x.sum := by
  induction x with
  | nil => simp
  | cons a x ih =>
    rcases eq_or_ne x [] with rfl | hne
    · simp
    · have hL : 0 < (x.length : ℚ) := by exact_mod_cast List.length_pos.mpr hne
      simp only [List.map_cons, List.sum_cons, List.length_cons]
      push_cast
      nlinarith [ih, sq_nonneg ((x.length : ℚ) * a - x.sum), hL,
        mul_nonneg (by positivity : (0:ℚ) ≤ (x.length : ℚ) + 1) ih]

/-- Every Pearson correlation computed by `calculateCorrelation` lies in
`[-1, 1]`. -/
lemma calculateCorrelation_mem (x y : List ℚ) :
    -1 ≤ calculateCorrelation x y ∧ calculateCorrelation x y ≤ 1 := by
  unfold calculateCorrelation
  split
  · norm_num
  · rename_i hg
    push_neg at hg
    obtain ⟨hlen, hne⟩ := hg
    dsimp only
    split
    · norm_num
    · rename_i hden
      set n : ℚ := (x.length : ℚ) with hn
      set num : ℚ := n * ((x.zip y).map fun p => p.1 * p.2).sum - x.sum * y.sum with hnum
      set D : ℚ := (n * (x.map fun xi => xi * xi).sum - x.sum * x.sum)
        * (n * (y.map fun yi => yi * yi).sum - y.sum * y.sum) with hD
      have hDpos : (0:ℝ) < (D:ℝ) := by
        by_contra hle
        push_neg at hle
        exact hden (Real.sqrt_eq_zero'.mpr hle)
      have hq := corr_num_sq_le x y hlen
      rw [← hn] at hq
      rw [← hnum, ← hD] at hq
      have hnum2 : (num:ℝ) ^ 2 ≤ (D:ℝ) := by exact_mod_cast hq
      have hsq : 0 < Real.sqrt (D:ℝ) := Real.sqrt_pos.mpr hDpos
      have habs : |(num:ℝ)| ≤ Real.sqrt (D:ℝ) := by
        rw [← Real.sqrt_sq_eq_abs]
        exact Real.sqrt_le_sqrt hnum2
      have habs2 : |(num:ℝ) / Real.sqrt (D:ℝ)| ≤ 1 := by
        rw [abs_div, abs_of_nonneg (Real.sqrt_nonneg _)]
        exact (div_le_one hsq).mpr habs
      exact abs_le.mp habs2

/-! Bounds machinery for the KS-style distribution-distance statistic. -/

lemma distributionIncr_nonneg (dist : List (String × ℚ)) (k : String)
    (h : ∀ p ∈ dist, 0 ≤ p.2) : ∀ p ∈ distributionIncr dist k, 0 ≤ p.2 := by
  induction dist with
  | nil =>
    intro p hp
    simp only [distributionIncr, List.mem_singleton] at hp
    simp [hp]
  | cons q rest ih =>
    intro p hp
    simp only [distributionIncr] at hp
    split at hp
    · rcases List.mem_cons.mp hp with rfl | hmem
      · have := h q (List.mem_cons_self q rest)
        simp only []
        linarith
      · exact h p (List.mem_cons_of_mem q hmem)
    · rcases List.mem_cons.mp hp with rfl | hmem
      · exact h q (List.mem_cons_self q rest)
      · exact ih (fun p hp => h p (List.mem_cons_of_mem q hp)) p hmem

lemma distributionIncr_sum (dist : List (String × ℚ)) (k : String) :
    ((distributionIncr dist k).map Prod.snd).sum = (dist.map Prod.snd).sum + 1 := by
  induction dist with
  | nil => simp [distributionIncr]
  | cons q rest ih =>
    simp only [distributionIncr]
    split
    · simp [List.map_cons, List.sum_cons]
      ring
    · simp only [List.map_cons, List.sum_cons, ih]
      ring

lemma calculateDistribution_nonneg (items : List String) :
    ∀ p ∈ calculateDistribution items, 0 ≤ p.2 := by
  unfold calculateDistribution
  have h : ∀ (acc : List (String × ℚ)), (∀ p ∈ acc, 0 ≤ p.2) →
      ∀ p ∈ items.foldl distributionIncr acc, 0 ≤ p.2 := by
    induction items with
    | nil => exact fun acc hacc => hacc
    | cons it rest ih =>
      intro acc hacc
      exact ih (distributionIncr acc it) (distributionIncr_nonneg acc it hacc)
  exact h [] (by simp)

lemma calculateDistribution_total (items : List String) :
    ((calculateDistribution items).map Prod.snd).sum = (items.length : ℚ) := by
  unfold calculateDistribution
  have h : ∀ (acc : List (String × ℚ)),
      ((items.foldl distributionIncr acc).map Prod.snd).sum
        = (acc.map Prod.snd).sum + (items.length : ℚ) := by
    induction items with
    | nil => simp
    | cons it rest ih =>
      intro acc
      simp only [List.foldl_cons, ih (distributionIncr acc it), distributionIncr_sum,
        List.length_cons]
      push_cast
      ring
  simpa using h []

lemma lookupD_bounds (dist : List (String × ℚ)) (h : ∀ p ∈ dist, 0 ≤ p.2) (k : String) :
    0 ≤ lookupD dist k 0 ∧ lookupD dist k 0 ≤ (dist.map Prod.snd).sum := by
  induction dist with
  | nil => simp [lookupD]
  | cons q rest ih =>
    have hq := h q (List.mem_cons_self q rest)
    have hrest : ∀ p ∈ rest, 0 ≤ p.2 := fun p hp => h p (List.mem_cons_of_mem q hp)
    have hsum : 0 ≤ (rest.map Prod.snd).sum :=
      List.sum_nonneg (by
        intro v hv
        obtain ⟨p, hp, rfl⟩ := List.mem_map.mp hv
        exact hrest p hp)
    obtain ⟨ih1, ih2⟩ := ih hrest
    unfold lookupD List.lookup
    simp only [List.map_cons, List.sum_cons]
    split
    · simp only [Option.getD_some]
      exact ⟨hq, by linarith⟩
    · unfold lookupD at ih1 ih2
      exact ⟨ih1, by linarith⟩

lemma ks_fold_bound (keys : List String) (t : String → Option ℚ)
    (ht : ∀ k, ∃ v, t k = some v ∧ 0 ≤ v ∧ v ≤ 1) :
    ∀ a : ℚ, 0 ≤ a → a ≤ 1 →
      ∃ v, keys.foldl (fun md k => jsMax md (t k)) (some a) = some v ∧ 0 ≤ v ∧ v ≤ 1 := by
  induction keys with
  | nil => exact fun a h0 h1 => ⟨a, rfl, h0, h1⟩
  | cons k ks ih =>
    intro a h0 h1
    obtain ⟨v, hv, hv0, hv1⟩ := ht k
    have hstep : jsMax (some a) (t k) = some (max a v) := by
      rw [hv]
      rfl
    simp only [List.foldl_cons, hstep]
    exact ih (max a v) (le_trans h0 (le_max_left _ _)) (max_le h1 hv1)

/-- The KS-style statistic is a well-defined number in `[0, 1]` whenever both
distributions have non-negative values and positive totals. -/
lemma kolmogorovSmirnovTest_mem (observed expected : List (String × ℚ))
    (hobs : ∀ p ∈ observed, 0 ≤ p.2) (hexp : ∀ p ∈ expected, 0 ≤ p.2)
    (hto : 0 < (observed.map Prod.snd).sum) (hte : 0 < (expected.map Prod.snd).sum) :
    ∃ v, kolmogorovSmirnovTest observed expected = some v ∧ 0 ≤ v ∧ v ≤ 1 := by
  unfold kolmogorovSmirnovTest
  dsimp only
  refine ks_fold_bound _ _ ?_ 0 le_rfl (by norm_num)
  intro k
  obtain ⟨ho0, hole⟩ := lookupD_bounds observed hobs k
  obtain ⟨he0, hele⟩ := lookupD_bounds expected hexp k
  refine ⟨|lookupD observed k 0 / (observed.map Prod.snd).sum
      - lookupD expected k 0 / (expected.map Prod.snd).sum|, ?_, abs_nonneg _, ?_⟩
  · simp [jsDiv, jsSub, jsAbs, hto.ne', hte.ne']
  · have ha0 : 0 ≤ lookupD observed k 0 / (observed.map Prod.snd).sum :=
      div_nonneg ho0 hto.le
    have ha1 : lookupD observed k 0 / (observed.map Prod.snd).sum ≤ 1 :=
      (div_le_one hto).mpr hole
    have hb0 : 0 ≤ lookupD expected k 0 / (expected.map Prod.snd).sum :=
      div_nonneg he0 hte.le
    have hb1 : lookupD expected k 0 / (expected.map Prod.snd).sum ≤ 1 :=
      (div_le_one hte).mpr hele
    rw [abs_le]
    constructor <;> linarith

/-- A non-empty dataset yields a non-empty per-subject profile map. -/
lemma firstBySubject_ne_nil (dataset : List MonthlyRecord) (h : dataset ≠ []) :
    firstBySubject dataset ≠ [] := by
  unfold firstBySubject
  have hgrow : ∀ (rest : List MonthlyRecord) (acc : List (String × Demographics)),
      acc.length ≤ (rest.foldl (fun subjects record =>
        if (subjects.lookup record.subject_id).isSome then subjects
        else subjects ++ [(record.subject_id, record.demographics)]) acc).length := by
    intro rest
    induction rest with
    | nil => exact fun acc => le_rfl
    | cons r rs ih =>
      intro acc
      refine le_trans ?_ (ih _)
      dsimp only
      split
      · exact le_rfl
      · simp
  cases dataset with
  | nil => exact absurd rfl h
  | cons r rest =>
    intro hnil
    have h1 := hgrow rest [(r.subject_id, r.demographics)]
    rw [List.foldl_cons] at hnil
    have hstep : (if (List.lookup r.subject_id ([] : List (String × Demographics))).isSome = true
        then ([] : List (String × Demographics))
        else [] ++ [(r.subject_id, r.demographics)])
        = [(r.subject_id, r.demographics)] := rfl
    rw [hstep] at hnil
    rw [hnil] at h1
    simp at h1

/-- C9: for every non-empty record collection, every Pearson correlation in
the validation report lies in `[-1, 1]`, the KS-style distribution-distance
statistic is a well-defined number in `[0, 1]`, and `calculateCorrelation`
returns 0 on empty or unequal-length inputs. -/
theorem C9_validation_statistics_bounded (ds : List MonthlyRecord) (hne : ds ≠ []) :
    (-1 ≤ (validationResults ds).demographic_accuracy.income_education_correlation ∧
      (validationResults ds).demographic_accuracy.income_education_correlation ≤ 1) ∧
    (-1 ≤ (validationResults ds).demographic_accuracy.fitness_age_relationship ∧
      (validationResults ds).demographic_accuracy.fitness_age_relationship ≤ 1) ∧
    (-1 ≤ (validationResults ds).behavior_correlations.exercise_sleep_correlation ∧
      (validationResults ds).behavior_correlations.exercise_sleep_correlation ≤ 1) ∧
    (-1 ≤ (validationResults ds).behavior_correlations.diet_meditation_correlation ∧
      (validationResults ds).behavior_correlations.diet_meditation_correlation ≤ 1) ∧
    (-1 ≤ (validationResults ds).behavior_correlations.social_purpose_correlation ∧
      (validationResults ds).behavior_correlations.social_purpose_correlation ≤ 1) ∧
    (∃ k, (validationResults ds).demographic_accuracy.age_distribution_ks_test = some k ∧
      0 ≤ k ∧ k ≤ 1) ∧
    (∀ x y : List ℚ, x.length ≠ y.length ∨ x = [] → calculateCorrelation x y = 0) := by
  unfold validationResults validateDemographicAccuracy validateBehaviorCorrelations
  dsimp only
  refine ⟨calculateCorrelation_mem _ _, calculateCorrelation_mem _ _,
    calculateCorrelation_mem _ _, calculateCorrelation_mem _ _,
    calculateCorrelation_mem _ _, ?_, ?_⟩
  · apply kolmogorovSmirnovTest_mem
    · exact calculateDistribution_nonneg _
    · intro p hp
      fin_cases hp <;> norm_num
    · rw [calculateDistribution_total]
      simp only [List.length_map]
      have hpos : 0 < (firstBySubject ds).length :=
        List.length_pos.mpr (firstBySubject_ne_nil ds hne)
      exact_mod_cast hpos
    · norm_num [getExpectedAgeDistribution]
  · intro x y hxy
    have hcond : x.length ≠ y.length ∨ x.length = 0 := by
      rcases hxy with h | rfl
      · exact Or.inl h
      · exact Or.inr rfl
    unfold calculateCorrelation
    rw [if_pos hcond]

/-- Witness for `C9_validation_statistics_bounded` on a concrete generated
one-record dataset. -/
theorem C9_validation_statistics_bounded_witness :
    ∃ k, (validationResults (genRecords ⟨1, 1, false, "json"⟩ (fun _ => zeroDemoDraws)
        (fun _ _ => zeroBehaviorNoise) (fun _ _ => zeroOutcomeNoise)
        (fun _ => 1))).demographic_accuracy.age_distribution_ks_test = some k ∧
      0 ≤ k ∧ k ≤ 1 :=
  (C9_validation_statistics_bounded _ (List.cons_ne_nil _ _)).2.2.2.2.2.1
